import Mathlib

/-!
# Target group registration resource

A shallow embedding of `internal/service/elbv2/target_group_registration.go`:
the CRUD handlers of the `aws_lb_target_group_registration` resource, the
finder used by `Read`, and the two converters `expandTargets` and
`flattenTargets`; and of the create function with retry of
`internal/service/macie2/custom_data_identifier.go`.

The remote service is an explicit state machine (`ELBV2 σ`): every SDK call
takes the remote state and returns its answer together with the next remote
state.  A handler threads a `World σ`, which holds the remote state and the log
of the SDK calls issued so far.
-/

set_option autoImplicit false
set_option linter.dupNamespace false

/-! ## Framework values (`terraform-plugin-framework/types`) -/

/-- Go strings. -/
abbrev GoString := String

/-- The framework string value: null, unknown, or a known Go string. -/
inductive types.String where
  | null
  | unknown
  | value (s : GoString)
  deriving DecidableEq, Repr

/-- The framework 64-bit integer value: null, unknown, or a known integer. -/
inductive types.Int64 where
  | null
  | unknown
  | value (i : Int)
  deriving DecidableEq, Repr

/-- The framework set value.  The `target` block is configuration, so at apply
and refresh time the set itself is null or known; only a nested computed
attribute (`port`) can still be unknown. -/
inductive types.Set (α : Type) where
  | null
  | value (elems : List α)
  deriving DecidableEq, Repr

/-- The `IsNull` method of a framework string. -/
def types.String.IsNull : types.String → Bool
  | .null => true
  | _ => false

/-- The `ValueString` method: the known string, or the empty string when the
value is null or unknown. -/
def types.String.ValueString : types.String → GoString
  | .value s => s
  | _ => ""

/-- The `String` method of a framework string: a printable rendering. -/
def types.String.String : types.String → GoString
  | .null => "<null>"
  | .unknown => "<unknown>"
  | .value s => "\"" ++ s ++ "\""

/-- The `IsNull` method of a framework integer. -/
def types.Int64.IsNull : types.Int64 → Bool
  | .null => true
  | _ => false

/-- The `IsUnknown` method of a framework integer. -/
def types.Int64.IsUnknown : types.Int64 → Bool
  | .unknown => true
  | _ => false

/-- The `ValueInt64` method: the known integer, or zero. -/
def types.Int64.ValueInt64 : types.Int64 → Int
  | .value i => i
  | _ => 0

/-- The `Equal` method of a framework set: same state, and for known sets the
same number of elements with every element of the receiver found in the other
set. -/
def types.Set.Equal {α : Type} [DecidableEq α] : types.Set α → types.Set α → Bool
  | .null, .null => true
  | .value xs, .value ys => xs.length == ys.length && xs.all (fun x => ys.contains x)
  | _, _ => false

/-- The `ElementsAs` method into a Go slice: a null set gives the nil slice, a
known set gives its elements.  No diagnostic arises for these two states. -/
def types.Set.ElementsAs {α : Type} : types.Set α → List α
  | .null => []
  | .value xs => xs

/-! ## Resource data (lines 343-359) -/

/-- The `targetData` struct (lines 349-353). -/
structure targetData where
  AvailabilityZone : types.String
  Port : types.Int64
  TargetID : types.String
  deriving DecidableEq, Repr

/-- The `resourceTargetGroupRegistrationData` struct (lines 343-347). -/
structure resourceTargetGroupRegistrationData where
  ID : types.String
  Target : types.Set targetData
  TargetGroupARN : types.String
  deriving DecidableEq, Repr

/-! ## SDK types (`aws-sdk-go/service/elbv2`) -/

/-- The SDK `TargetDescription`; every field is a pointer in Go. -/
structure elbv2.TargetDescription where
  AvailabilityZone : Option GoString
  Id : Option GoString
  Port : Option Int
  deriving DecidableEq, Repr

/-- The SDK `TargetHealthDescription`, reduced to the fields a pointer to which
the resource can observe. -/
structure elbv2.TargetHealthDescription where
  HealthCheckPort : Option GoString
  Target : Option elbv2.TargetDescription
  deriving DecidableEq, Repr

/-- The SDK `RegisterTargetsInput`.  `Targets` is `none` for the nil slice. -/
structure elbv2.RegisterTargetsInput where
  TargetGroupArn : Option GoString
  Targets : Option (List elbv2.TargetDescription)
  deriving DecidableEq, Repr

/-- The SDK `DeregisterTargetsInput`. -/
structure elbv2.DeregisterTargetsInput where
  TargetGroupArn : Option GoString
  Targets : Option (List elbv2.TargetDescription)
  deriving DecidableEq, Repr

/-- The SDK `DescribeTargetHealthInput`. -/
structure elbv2.DescribeTargetHealthInput where
  TargetGroupArn : Option GoString
  Targets : Option (List elbv2.TargetDescription)
  deriving DecidableEq, Repr

/-- The SDK `DescribeTargetHealthOutput`: a possibly nil slice of possibly nil
pointers. -/
structure elbv2.DescribeTargetHealthOutput where
  TargetHealthDescriptions : Option (List (Option elbv2.TargetHealthDescription))
  deriving DecidableEq, Repr

/-- The SDK error code of a missing target group. -/
def elbv2.ErrCodeTargetGroupNotFoundException : GoString := "TargetGroupNotFound"

/-- An error returned by an SDK call: an `awserr.Error` with a code, or any
other error. -/
inductive SdkError where
  | awserr (Code Message : GoString)
  | other (Message : GoString)
  deriving DecidableEq, Repr

/-- The `Error` method of an SDK error. -/
def SdkError.Error : SdkError → GoString
  | .awserr c m => c ++ ": " ++ m
  | .other m => m

/-- The helper `tfawserr.ErrCodeEquals`: the error is a coded SDK error whose
code is the given one; false for the nil error. -/
def tfawserr.ErrCodeEquals (err : Option SdkError) (code : GoString) : Bool :=
  match err with
  | some (.awserr c _) => c == code
  | _ => false

/-- The Go `error` values the finder returns: an SDK error passed through, a
`retry.NotFoundError`, or the `EmptyResultError` built by
`tfresource.NewEmptyResultError`. -/
inductive error where
  | sdk (e : SdkError)
  | NotFoundError (LastError : Option SdkError)
      (LastRequest : elbv2.DescribeTargetHealthInput)
  | EmptyResultError (LastRequest : elbv2.DescribeTargetHealthInput)
  deriving DecidableEq, Repr

/-- The `Error` method of the finder's errors. -/
def error.Error : error → GoString
  | .sdk e => e.Error
  | .NotFoundError _ _ => "couldn't find resource"
  | .EmptyResultError _ => "empty result"

/-- Modelled from the spec: `tfresource.NotFound` is not among the sources.
It recognises the spec's `NotFound` condition, a `retry.NotFoundError`.  In the
repository an `EmptyResultError` answers as a `retry.NotFoundError` as well,
through its `As` method, so the predicate holds for it too; it does not hold
for an error of the SDK. -/
def tfresource.NotFound : Option error → Bool
  | some (.NotFoundError _ _) => true
  | some (.EmptyResultError _) => true
  | _ => false

/-! ## Diagnostics (`terraform-plugin-framework/diag`) -/

/-- Severity of a diagnostic. -/
inductive diag.Severity where
  | Error
  | Warning
  deriving DecidableEq, Repr

/-- One diagnostic. -/
structure diag.Diagnostic where
  Severity : diag.Severity
  Summary : GoString
  Detail : GoString
  deriving DecidableEq, Repr

/-- The collection of diagnostics of a response. -/
abbrev diag.Diagnostics := List diag.Diagnostic

/-- The `HasError` method: some diagnostic has error severity. -/
def diag.HasError (ds : diag.Diagnostics) : Bool :=
  ds.any (fun d => d.Severity == diag.Severity.Error)

/-- The `AddError` method: appends an error diagnostic unless an equal one is
already present. -/
def diag.AddError (ds : diag.Diagnostics) (summary detail : GoString) : diag.Diagnostics :=
  let d : diag.Diagnostic := ⟨diag.Severity.Error, summary, detail⟩
  if ds.contains d then ds else ds ++ [d]

/-- The resource name constant (line 32). -/
def ResNameTargetGroupRegistration : GoString := "Target Group Registration"

/-- Modelled from the spec: the constant `names.ELBV2` is not among the sources;
it names the service in a failure message. -/
def names.ELBV2 : GoString := "elbv2"

/-- Modelled from the spec: the constant `create.ErrActionCreating` is not among
the sources; it names the attempted action of a failure message. -/
def create.ErrActionCreating : GoString := "creating"

/-- Modelled from the spec: the constant `create.ErrActionSetting` is not among
the sources; it names the attempted action of a failure message. -/
def create.ErrActionSetting : GoString := "setting"

/-- Modelled from the spec: the constant `create.ErrActionUpdating` is not among
the sources; it names the attempted action of a failure message. -/
def create.ErrActionUpdating : GoString := "updating"

/-- Modelled from the spec: the constant `create.ErrActionDeleting` is not among
the sources; it names the attempted action of a failure message. -/
def create.ErrActionDeleting : GoString := "deleting"

/-- Modelled from the spec: `create.ProblemStandardMessage` is not among the
sources.  The spec has a failure carry the "group identifier, attempted action,
and underlying cause"; the message joins them with the service and the
resource name. -/
def create.ProblemStandardMessage (service action resource id cause : GoString) : GoString :=
  action ++ " " ++ service ++ " " ++ resource ++ " (" ++ id ++ "): " ++ cause

/-! ## Converters (lines 287-341) -/

/-- Modelled from the spec: `flex.StringToFramework` is not among the sources.
An absent value (nil pointer) becomes null, a present one the known value. -/
def flex.StringToFramework : Option GoString → types.String
  | none => .null
  | some s => .value s

/-- Modelled from the spec: `flex.Int64ToFramework` is not among the sources.
An absent value (nil pointer) becomes null, a present one the known value. -/
def flex.Int64ToFramework : Option Int → types.Int64
  | none => .null
  | some i => .value i

/-- One iteration of the loop of `expandTargets` (lines 327-335). -/
def expandTarget (tfObj : targetData) : elbv2.TargetDescription :=
  let item : elbv2.TargetDescription :=
    { Id := some tfObj.TargetID.ValueString, AvailabilityZone := none, Port := none }
  let item :=
    if !tfObj.AvailabilityZone.IsNull then
      { item with AvailabilityZone := some tfObj.AvailabilityZone.ValueString }
    else item
  let item :=
    if !tfObj.Port.IsNull && !tfObj.Port.IsUnknown then
      { item with Port := some tfObj.Port.ValueInt64 }
    else item
  item

/-- The function `expandTargets` (lines 319-341): the nil slice for an empty
list, otherwise one SDK target per element, in order. -/
def expandTargets (tfList : List targetData) : Option (List elbv2.TargetDescription) :=
  if tfList.length == 0 then none
  else some (tfList.foldl (fun apiObject tfObj => apiObject ++ [expandTarget tfObj]) [])

/-- The function `flattenTargets` (lines 287-317).  The two constructors
`types.ObjectValue` and `types.SetValue` are called with the declared
attribute types, so they add no diagnostic. -/
def flattenTargets (apiObjects : List (Option elbv2.TargetHealthDescription)) :
    types.Set targetData × diag.Diagnostics :=
  let diags : diag.Diagnostics := []
  if apiObjects.length == 0 then (.null, diags)
  else
    let elems := apiObjects.foldl (fun (elems : List targetData) apiObject =>
      match apiObject with
      | none => elems
      | some d =>
        match d.Target with
        | none => elems
        | some target =>
          elems ++ [{ AvailabilityZone := flex.StringToFramework target.AvailabilityZone,
                      Port := flex.Int64ToFramework target.Port,
                      TargetID := flex.StringToFramework target.Id }]) []
    (.value elems, diags)

/-! ## The remote service and the call log -/

/-- The part of the SDK client the resource uses.  Each call takes the remote
state and returns its answer with the next remote state; the outputs of the two
mutating calls are discarded by the resource, so only their error is kept. -/
structure ELBV2 (σ : Type) where
  RegisterTargetsWithContext : elbv2.RegisterTargetsInput → σ → Option SdkError × σ
  DeregisterTargetsWithContext : elbv2.DeregisterTargetsInput → σ → Option SdkError × σ
  DescribeTargetHealthWithContext : elbv2.DescribeTargetHealthInput → σ →
    (Option elbv2.DescribeTargetHealthOutput × Option SdkError) × σ

/-- One SDK call, as logged. -/
inductive Call where
  | RegisterTargets (input : elbv2.RegisterTargetsInput)
  | DeregisterTargets (input : elbv2.DeregisterTargetsInput)
  | DescribeTargetHealth (input : elbv2.DescribeTargetHealthInput)
  deriving DecidableEq, Repr

/-- Whether a logged call is a register call. -/
def Call.isRegister : Call → Bool
  | .RegisterTargets _ => true
  | _ => false

/-- Whether a logged call is a deregister call. -/
def Call.isDeregister : Call → Bool
  | .DeregisterTargets _ => true
  | _ => false

/-- The remote state together with the log of the calls issued so far. -/
structure World (σ : Type) where
  remote : σ
  calls : List Call

/-- Issue a register call: run it on the remote state and log it. -/
def World.register {σ : Type} (conn : ELBV2 σ) (input : elbv2.RegisterTargetsInput)
    (w : World σ) : Option SdkError × World σ :=
  let r := conn.RegisterTargetsWithContext input w.remote
  (r.1, { remote := r.2, calls := w.calls ++ [Call.RegisterTargets input] })

/-- Issue a deregister call: run it on the remote state and log it. -/
def World.deregister {σ : Type} (conn : ELBV2 σ) (input : elbv2.DeregisterTargetsInput)
    (w : World σ) : Option SdkError × World σ :=
  let r := conn.DeregisterTargetsWithContext input w.remote
  (r.1, { remote := r.2, calls := w.calls ++ [Call.DeregisterTargets input] })

/-- Issue a describe call: run it on the remote state and log it. -/
def World.describe {σ : Type} (conn : ELBV2 σ) (input : elbv2.DescribeTargetHealthInput)
    (w : World σ) : (Option elbv2.DescribeTargetHealthOutput × Option SdkError) × World σ :=
  let r := conn.DescribeTargetHealthWithContext input w.remote
  (r.1, { remote := r.2, calls := w.calls ++ [Call.DescribeTargetHealth input] })

/-! ## Requests and responses (`terraform-plugin-framework/resource`)

A request carries decoded data, so `Plan.Get` and `State.Get` add no
diagnostic.  The state of a response is `none` when the resource has no state
(before `Create` writes it, after `RemoveResource`). -/

/-- The create request: the planned data. -/
structure CreateRequest where
  Plan : resourceTargetGroupRegistrationData

/-- The read request: the prior state. -/
structure ReadRequest where
  State : resourceTargetGroupRegistrationData

/-- The update request: the planned data and the prior state. -/
structure UpdateRequest where
  Plan : resourceTargetGroupRegistrationData
  State : resourceTargetGroupRegistrationData

/-- The delete request: the prior state. -/
structure DeleteRequest where
  State : resourceTargetGroupRegistrationData

/-- The response of a handler: the state it leaves and its diagnostics. -/
structure Response where
  State : Option resourceTargetGroupRegistrationData
  Diagnostics : diag.Diagnostics
  deriving DecidableEq, Repr

/-! ## The finder (lines 261-285) -/

/-- The function `findTargetGroupRegistrationByMultipartKey` (lines 261-285).
The Go pair of a slice and an error is kept as a pair. -/
def findTargetGroupRegistrationByMultipartKey {σ : Type} (conn : ELBV2 σ)
    (targetGroupARN : GoString) (targets : List targetData) (w : World σ) :
    (Option (List (Option elbv2.TargetHealthDescription)) × Option error) × World σ :=
  let input : elbv2.DescribeTargetHealthInput :=
    { TargetGroupArn := some targetGroupARN, Targets := expandTargets targets }
  let r := w.describe conn input
  let out := r.1.1
  let err := r.1.2
  if tfawserr.ErrCodeEquals err elbv2.ErrCodeTargetGroupNotFoundException then
    ((none, some (error.NotFoundError err input)), r.2)
  else
    match err with
    | some e => ((none, some (error.sdk e)), r.2)
    | none =>
      match out with
      | none => ((none, some (error.EmptyResultError input)), r.2)
      | some o =>
        match o.TargetHealthDescriptions with
        | none => ((none, some (error.EmptyResultError input)), r.2)
        | some l => ((some l, none), r.2)

/-! ## The set difference of `Update` -/

/-- Modelled from the spec: `flex.Set[T].Difference` is not among the sources.
The spec's difference keeps the members of the receiver that are absent from
the argument.  The set is generic in its element type and `Update` instantiates
it at `targetData` without a key function, so elements are compared as whole
values. -/
def flex.Set.Difference {α : Type} [DecidableEq α] (s ns : List α) : List α :=
  s.filter (fun v => !ns.contains v)

/-- Lines 165-182 of `Update`: the two target lists it computes from the plan
and the prior state, as the pair `(regTargets, deregTargets)`.  Line 168 reads
`plan.Target` into `stateTargets`, and line 174 builds `stateSet` from
`planTargets`; the prior state is not read. -/
def resourceTargetGroupRegistration.Update.targets
    (plan _state : resourceTargetGroupRegistrationData) :
    List targetData × List targetData :=
  let planTargets := plan.Target.ElementsAs
  let _stateTargets := plan.Target.ElementsAs
  let planSet := planTargets
  let stateSet := planTargets
  let deregTargets := (flex.Set.Difference planSet stateSet).foldl
    (fun (acc : List targetData) item => acc ++ [item]) []
  let regTargets := (flex.Set.Difference stateSet planSet).foldl
    (fun (acc : List targetData) item => acc ++ [item]) []
  (regTargets, deregTargets)

/-- Lines 185-218 of `Update`: the deregister step followed by the register
step, for the two lists computed before.  The flag of the result is `true`
when the handler has returned early: the response is then final and the state
is not written. -/
def resourceTargetGroupRegistration.Update.apply {σ : Type} (conn : ELBV2 σ)
    (plan state : resourceTargetGroupRegistrationData)
    (regTargets deregTargets : List targetData) (resp : Response) (w : World σ) :
    (Response × Bool) × World σ :=
  let step1 : (Response × Bool) × World σ :=
    if deregTargets.length > 0 then
      let input : elbv2.DeregisterTargetsInput :=
        { TargetGroupArn := some state.TargetGroupARN.ValueString,
          Targets := expandTargets deregTargets }
      let r := w.deregister conn input
      match r.1 with
      | some e =>
        if tfawserr.ErrCodeEquals (some e) elbv2.ErrCodeTargetGroupNotFoundException then
          ((resp, true), r.2)
        else
          let summary := create.ProblemStandardMessage names.ELBV2 create.ErrActionUpdating
            ResNameTargetGroupRegistration state.ID.String e.Error
          (({ resp with Diagnostics := diag.AddError resp.Diagnostics summary e.Error }, true), r.2)
      | none => ((resp, false), r.2)
    else ((resp, false), w)
  if step1.1.2 then step1
  else
    let resp := step1.1.1
    let w := step1.2
    if regTargets.length > 0 then
      let input : elbv2.RegisterTargetsInput :=
        { TargetGroupArn := some plan.TargetGroupARN.ValueString,
          Targets := expandTargets regTargets }
      let r := w.register conn input
      match r.1 with
      | some e =>
        let summary := create.ProblemStandardMessage names.ELBV2 create.ErrActionUpdating
          ResNameTargetGroupRegistration plan.TargetGroupARN.String e.Error
        (({ resp with Diagnostics := diag.AddError resp.Diagnostics summary e.Error }, true), r.2)
      | none => ((resp, false), r.2)
    else ((resp, false), w)

/-! ## The handlers (lines 79-255) -/

/-- The handler `Create` (lines 79-115).  The response starts without state. -/
def resourceTargetGroupRegistration.Create {σ : Type} (conn : ELBV2 σ)
    (req : CreateRequest) (w : World σ) : Response × World σ :=
  let resp : Response := { State := none, Diagnostics := [] }
  let plan := req.Plan
  let tfList := plan.Target.ElementsAs
  let input : elbv2.RegisterTargetsInput :=
    { TargetGroupArn := some plan.TargetGroupARN.ValueString,
      Targets := expandTargets tfList }
  let r := w.register conn input
  match r.1 with
  | some e =>
    let summary := create.ProblemStandardMessage names.ELBV2 create.ErrActionCreating
      ResNameTargetGroupRegistration plan.TargetGroupARN.String e.Error
    ({ resp with Diagnostics := diag.AddError resp.Diagnostics summary e.Error }, r.2)
  | none =>
    let plan := { plan with ID := types.String.value plan.TargetGroupARN.ValueString }
    ({ resp with State := some plan }, r.2)

/-- The handler `Read` (lines 117-151).  The response starts with the prior
state. -/
def resourceTargetGroupRegistration.Read {σ : Type} (conn : ELBV2 σ)
    (req : ReadRequest) (w : World σ) : Response × World σ :=
  let resp : Response := { State := some req.State, Diagnostics := [] }
  let state := req.State
  let tfList := state.Target.ElementsAs
  let r := findTargetGroupRegistrationByMultipartKey conn
    state.TargetGroupARN.ValueString tfList w
  let out := r.1.1
  let err := r.1.2
  if tfresource.NotFound err then
    ({ resp with State := none }, r.2)
  else
    match err with
    | some e =>
      let summary := create.ProblemStandardMessage names.ELBV2 create.ErrActionSetting
        ResNameTargetGroupRegistration state.ID.String e.Error
      ({ resp with Diagnostics := diag.AddError resp.Diagnostics summary e.Error }, r.2)
    | none =>
      let f := flattenTargets (out.getD [])
      let resp := { resp with Diagnostics := resp.Diagnostics ++ f.2 }
      let state := { state with Target := f.1 }
      ({ resp with State := some state }, r.2)

/-- The handler `Update` (lines 153-222).  The response starts with the prior
state. -/
def resourceTargetGroupRegistration.Update {σ : Type} (conn : ELBV2 σ)
    (req : UpdateRequest) (w : World σ) : Response × World σ :=
  let resp : Response := { State := some req.State, Diagnostics := [] }
  let plan := req.Plan
  let state := req.State
  let r : (Response × Bool) × World σ :=
    if !plan.Target.Equal state.Target then
      let t := resourceTargetGroupRegistration.Update.targets plan state
      resourceTargetGroupRegistration.Update.apply conn plan state t.1 t.2 resp w
    else ((resp, false), w)
  if r.1.2 then (r.1.1, r.2)
  else ({ r.1.1 with State := some plan }, r.2)

/-- The handler `Delete` (lines 224-255).  The framework removes the state
after a delete without error; the handler itself leaves the response state as
it was given. -/
def resourceTargetGroupRegistration.Delete {σ : Type} (conn : ELBV2 σ)
    (req : DeleteRequest) (w : World σ) : Response × World σ :=
  let resp : Response := { State := some req.State, Diagnostics := [] }
  let state := req.State
  let tfList := state.Target.ElementsAs
  let input : elbv2.DeregisterTargetsInput :=
    { TargetGroupArn := some state.TargetGroupARN.ValueString,
      Targets := expandTargets tfList }
  let r := w.deregister conn input
  match r.1 with
  | some e =>
    if tfawserr.ErrCodeEquals (some e) elbv2.ErrCodeTargetGroupNotFoundException then
      (resp, r.2)
    else
      let summary := create.ProblemStandardMessage names.ELBV2 create.ErrActionDeleting
        ResNameTargetGroupRegistration state.ID.String e.Error
      ({ resp with Diagnostics := diag.AddError resp.Diagnostics summary e.Error }, r.2)
  | none => (resp, r.2)

/-! ## A reference registry

A remote service that mirrors the mutating calls: it knows a list of target
groups and, per group, the registered targets.  A call on an unknown group
fails with the target-group-not-found code.  Targets are identified by their
ID. -/

/-- The state of the reference registry. -/
structure Registry where
  groups : List GoString
  members : List (GoString × elbv2.TargetDescription)
  deriving DecidableEq, Repr

/-- The error of the reference registry for an unknown group. -/
def Registry.notFound : SdkError :=
  SdkError.awserr elbv2.ErrCodeTargetGroupNotFoundException "target group not found"

/-- Whether the target is among the given targets, by ID. -/
def Registry.named (ts : List elbv2.TargetDescription) (t : elbv2.TargetDescription) : Bool :=
  ts.any (fun u => u.Id == t.Id)

/-- The targets registered in a group. -/
def Registry.targetsOf (r : Registry) (g : GoString) : List elbv2.TargetDescription :=
  (r.members.filter (fun m => m.1 == g)).map (fun m => m.2)

/-- The IDs registered in a group. -/
def Registry.idsOf (r : Registry) (g : GoString) : List (Option GoString) :=
  (r.targetsOf g).map (fun t => t.Id)

/-- Remove the given targets from a group. -/
def Registry.remove (r : Registry) (g : GoString) (ts : List elbv2.TargetDescription) :
    Registry :=
  { r with members := r.members.filter (fun m => !(m.1 == g && Registry.named ts m.2)) }

/-- Add the given targets to a group; a target already registered under the
same ID is replaced. -/
def Registry.add (r : Registry) (g : GoString) (ts : List elbv2.TargetDescription) :
    Registry :=
  { r with members := (r.remove g ts).members ++ ts.map (fun t => (g, t)) }

/-- The reference registry as a remote service. -/
def Registry.conn : ELBV2 Registry where
  RegisterTargetsWithContext := fun input r =>
    let g := input.TargetGroupArn.getD ""
    if r.groups.contains g then (none, r.add g (input.Targets.getD []))
    else (some Registry.notFound, r)
  DeregisterTargetsWithContext := fun input r =>
    let g := input.TargetGroupArn.getD ""
    if r.groups.contains g then (none, r.remove g (input.Targets.getD []))
    else (some Registry.notFound, r)
  DescribeTargetHealthWithContext := fun input r =>
    let g := input.TargetGroupArn.getD ""
    if r.groups.contains g then
      let ts := match input.Targets with
        | none => r.targetsOf g
        | some sel => (r.targetsOf g).filter (Registry.named sel)
      let l := ts.map (fun t => some { HealthCheckPort := none, Target := some t })
      ((some { TargetHealthDescriptions := some l }, none), r)
    else ((none, some Registry.notFound), r)

/-- The target IDs of a list of targets of the resource, as sent to the remote
service. -/
def targetIDs (ts : List targetData) : List (Option GoString) :=
  ts.map (fun t => (expandTarget t).Id)

/-- The calls logged in `w1` after the log of `w0`. -/
def World.issued {σ : Type} (w0 w1 : World σ) : List Call :=
  w1.calls.drop w0.calls.length

/-! ## Concrete inputs -/

/-- A target with ID `A` and no other attribute. -/
def Example.targetA : targetData := ⟨.null, .null, .value "A"⟩

/-- A target with ID `B` and no other attribute. -/
def Example.targetB : targetData := ⟨.null, .null, .value "B"⟩

/-- A target with ID `C` and no other attribute. -/
def Example.targetC : targetData := ⟨.null, .null, .value "C"⟩

/-- The target `A` in zone `z1`. -/
def Example.targetAz1 : targetData := ⟨.value "z1", .null, .value "A"⟩

/-- The target `A` in zone `z2`. -/
def Example.targetAz2 : targetData := ⟨.value "z2", .null, .value "A"⟩

/-- Planned data for group `G` with the targets `A` and `B`. -/
def Example.planAB : resourceTargetGroupRegistrationData :=
  ⟨.value "G", .value [Example.targetA, Example.targetB], .value "G"⟩

/-- Prior state for group `G` with the targets `B` and `C`. -/
def Example.stateBC : resourceTargetGroupRegistrationData :=
  ⟨.value "G", .value [Example.targetB, Example.targetC], .value "G"⟩

/-- A reference registry where group `G` holds the targets `B` and `C`. -/
def Example.registryBC : Registry :=
  ⟨["G"], [("G", expandTarget Example.targetB), ("G", expandTarget Example.targetC)]⟩

/-- A reference registry where group `G` exists and is empty. -/
def Example.registryEmpty : Registry := ⟨["G"], []⟩

/-- A reference registry without any group. -/
def Example.registryNoGroup : Registry := ⟨[], []⟩

/-- A remote service without state whose every call fails with a throttling
error. -/
def Example.throttled : ELBV2 Unit where
  RegisterTargetsWithContext := fun _ s => (some (SdkError.awserr "Throttling" "slow down"), s)
  DeregisterTargetsWithContext := fun _ s => (some (SdkError.awserr "Throttling" "slow down"), s)
  DescribeTargetHealthWithContext := fun _ s =>
    ((none, some (SdkError.awserr "Throttling" "slow down")), s)

/-- A remote service without state whose describe call returns no error and a
payload without a description list. -/
def Example.hollow : ELBV2 Unit where
  RegisterTargetsWithContext := fun _ s => (none, s)
  DeregisterTargetsWithContext := fun _ s => (none, s)
  DescribeTargetHealthWithContext := fun _ s =>
    ((some { TargetHealthDescriptions := none }, none), s)

/-- A remote service that counts the mutating calls it has received: the first
one fails with the client error code, every later one succeeds. -/
def Example.flaky : ELBV2 Nat where
  RegisterTargetsWithContext := fun _ n =>
    match n with
    | 0 => (some (SdkError.awserr "ClientError" "not ready"), 1)
    | k + 1 => (none, k + 2)
  DeregisterTargetsWithContext := fun _ n =>
    match n with
    | 0 => (some (SdkError.awserr "ClientError" "not ready"), 1)
    | k + 1 => (none, k + 2)
  DescribeTargetHealthWithContext := fun _ n =>
    ((some { TargetHealthDescriptions := some [] }, none), n)

/-- A target with a known port and no zone. -/
def Example.targetPort : targetData := ⟨.null, .value 8080, .value "P"⟩

/-- A target in zone `z1` whose port is not yet known. -/
def Example.targetUnknownPort : targetData := ⟨.value "z1", .unknown, .value "U"⟩

/-! ## Custom data identifier: create with retry
(`internal/service/macie2/custom_data_identifier.go`, lines 106-157) -/

/-- The SDK error code `macie2.ErrorCodeClientError`. -/
def macie2.ErrorCodeClientError : GoString := "ClientError"

/-- The SDK `CreateCustomDataIdentifierInput`. -/
structure macie2.CreateCustomDataIdentifierInput where
  ClientToken : Option GoString
  Description : Option GoString
  IgnoreWords : Option (List GoString)
  Keywords : Option (List GoString)
  MaximumMatchDistance : Option Int
  Name : Option GoString
  Regex : Option GoString
  Tags : List (GoString × GoString)
  deriving DecidableEq, Repr

/-- The SDK `CreateCustomDataIdentifierOutput`. -/
structure macie2.CreateCustomDataIdentifierOutput where
  CustomDataIdentifierId : Option GoString
  deriving DecidableEq, Repr

/-- The part of the Macie client that `resourceCustomDataIdentifierCreate`
uses: the create call answers with a possibly nil output and a possibly nil
error, and moves the remote state on. -/
structure Macie2 (σ : Type) where
  CreateCustomDataIdentifierWithContext : macie2.CreateCustomDataIdentifierInput → σ →
    (Option macie2.CreateCustomDataIdentifierOutput × Option SdkError) × σ

/-- The remote state of the Macie service with the log of the create calls
issued so far. -/
structure Macie2World (σ : Type) where
  remote : σ
  creates : List macie2.CreateCustomDataIdentifierInput

/-- The resource data of the SDK (`schema.ResourceData`), reduced to the ID and
the attributes `resourceCustomDataIdentifierCreate` reads.  An attribute that
is not set holds the zero value of its type. -/
structure schema.ResourceData where
  Id : GoString
  regex : GoString
  keywords : List GoString
  ignore_words : List GoString
  name : GoString
  name_prefix : GoString
  description : GoString
  maximum_match_distance : Int
  deriving DecidableEq, Repr

/-- What lines 109-129 take from outside the resource data: the fresh token of
`id.UniqueId`, the tags of `getTagsIn`, and the name that `create.Name` makes
from the attributes `name` and `name_prefix`. -/
structure CreateEnv where
  UniqueId : GoString
  TagsIn : List (GoString × GoString)
  Name : GoString → GoString → GoString

/-- The helper `aws.StringValue`: the empty string for the nil pointer. -/
def aws.StringValue : Option GoString → GoString
  | none => ""
  | some s => s

/-- Lines 109-129 of `resourceCustomDataIdentifierCreate`: the input of the
create call.  `GetOk` reports an attribute as set when it is not the zero
value. -/
def resourceCustomDataIdentifierCreate.input (env : CreateEnv) (d : schema.ResourceData) :
    macie2.CreateCustomDataIdentifierInput :=
  { ClientToken := some env.UniqueId,
    Tags := env.TagsIn,
    Regex := if d.regex ≠ "" then some d.regex else none,
    Keywords := if d.keywords ≠ [] then some d.keywords else none,
    IgnoreWords := if d.ignore_words ≠ [] then some d.ignore_words else none,
    Name := some (env.Name d.name d.name_prefix),
    Description := if d.description ≠ "" then some d.description else none,
    MaximumMatchDistance :=
      if d.maximum_match_distance ≠ 0 then some d.maximum_match_distance else none }

/-- The value a retried function returns on failure (`retry.RetryError`): the
error and whether another attempt may be made. -/
structure retry.RetryError where
  Err : SdkError
  Retryable : Bool
  deriving DecidableEq, Repr

/-- The constructor `retry.RetryableError`. -/
def retry.RetryableError (err : SdkError) : retry.RetryError := ⟨err, true⟩

/-- The constructor `retry.NonRetryableError`. -/
def retry.NonRetryableError (err : SdkError) : retry.RetryError := ⟨err, false⟩

/-- The errors `retry.RetryContext` returns: an error of the retried function,
or its own `retry.TimeoutError`. -/
inductive retry.Failure where
  | fn (e : SdkError)
  | TimeoutError (LastError : Option SdkError)
  deriving DecidableEq, Repr

/-- The `Error` method of the errors of the retry helper. -/
def retry.Failure.Error : retry.Failure → GoString
  | .fn e => e.Error
  | .TimeoutError none => "timeout while waiting for state"
  | .TimeoutError (some e) => "timeout while waiting for state: " ++ e.Error

/-- The loop of `retry.RetryContext`.  The time limit is kept as `budget`, the
number of attempts that return before the limit is reached.  A success ends
the loop with no error, a failure that is not retryable ends it with that
error, and a retryable failure is remembered in `resultErr` before the next
attempt.  When the limit is reached the remembered error is returned if there
is one; the timeout error is returned only when no attempt has returned. -/
def retry.RetryContext.loop {S : Type} (f : S → Option retry.RetryError × S) :
    Nat → Option SdkError → S → Option retry.Failure × S
  | 0, none, s => (some (retry.Failure.TimeoutError none), s)
  | 0, some e, s => (some (retry.Failure.fn e), s)
  | budget + 1, _, s =>
    match f s with
    | (none, s1) => (none, s1)
    | (some rerr, s1) =>
      if rerr.Retryable then retry.RetryContext.loop f budget (some rerr.Err) s1
      else (some (retry.Failure.fn rerr.Err), s1)

/-- The helper `retry.RetryContext`: the loop, started with no remembered
error. -/
def retry.RetryContext {S : Type} (budget : Nat) (f : S → Option retry.RetryError × S)
    (s : S) : Option retry.Failure × S :=
  retry.RetryContext.loop f budget none s

/-- Modelled from the spec: `tfresource.TimedOut` is not among the sources.  It
recognises the spec's "retry budget exhausted" as the retry helper reports it:
a timeout error that carries no last error. -/
def tfresource.TimedOut : Option retry.Failure → Bool
  | some (.TimeoutError none) => true
  | _ => false

/-- The variables of `resourceCustomDataIdentifierCreate` that the retried
function assigns, together with the world it calls. -/
structure CreateVars (σ : Type) where
  output : Option macie2.CreateCustomDataIdentifierOutput
  err : Option SdkError
  world : Macie2World σ

/-- Issue the create call (lines 134 and 147): run it on the remote state, log
it, and assign `output` and `err`. -/
def CreateVars.call {σ : Type} (conn : Macie2 σ)
    (input : macie2.CreateCustomDataIdentifierInput) (v : CreateVars σ) : CreateVars σ :=
  let r := conn.CreateCustomDataIdentifierWithContext input v.world.remote
  { output := r.1.1, err := r.1.2,
    world := { remote := r.2, creates := v.world.creates ++ [input] } }

/-- The retried function of lines 133-144. -/
def resourceCustomDataIdentifierCreate.attempt {σ : Type} (conn : Macie2 σ)
    (input : macie2.CreateCustomDataIdentifierInput) (v : CreateVars σ) :
    Option retry.RetryError × CreateVars σ :=
  let v := v.call conn input
  match v.err with
  | some e =>
    if tfawserr.ErrCodeEquals (some e) macie2.ErrorCodeClientError then
      (some (retry.RetryableError e), v)
    else
      (some (retry.NonRetryableError e), v)
  | none => (none, v)

/-- The helper `diag.Errorf` of the SDK, applied to the formatted message: one
error diagnostic with the message as its summary. -/
def diag.Errorf (message : GoString) : diag.Diagnostics :=
  [⟨diag.Severity.Error, message, ""⟩]

/-- The result of `resourceCustomDataIdentifierCreate`: the diagnostics, the
resource data and the world it leaves. -/
structure CreateResult (σ : Type) where
  Diagnostics : diag.Diagnostics
  Data : schema.ResourceData
  World : Macie2World σ

/-- The function `resourceCustomDataIdentifierCreate` (lines 106-157).  The
call of `resourceCustomDataIdentifierRead` that ends it is the argument
`read`.  The result is `none` when the function dereferences a nil `output`
(line 154). -/
def resourceCustomDataIdentifierCreate {σ : Type} (conn : Macie2 σ) (env : CreateEnv)
    (read : schema.ResourceData → Macie2World σ → CreateResult σ) (budget : Nat)
    (d : schema.ResourceData) (w : Macie2World σ) : Option (CreateResult σ) :=
  let input := resourceCustomDataIdentifierCreate.input env d
  let r := retry.RetryContext budget (resourceCustomDataIdentifierCreate.attempt conn input)
    { output := none, err := none, world := w }
  let err := r.1
  let v := r.2
  let step : Option retry.Failure × CreateVars σ :=
    if tfresource.TimedOut err then
      let v := v.call conn input
      (v.err.map retry.Failure.fn, v)
    else (err, v)
  let err := step.1
  let v := step.2
  match err with
  | some e =>
    some { Diagnostics := diag.Errorf ("creating Macie CustomDataIdentifier: " ++ e.Error),
           Data := d, World := v.world }
  | none =>
    match v.output with
    | none => none
    | some output =>
      some (read { d with Id := aws.StringValue output.CustomDataIdentifierId } v.world)

/-- A Macie service without state whose create call always fails with the
client error code. -/
def Example.macieClientError : Macie2 Unit where
  CreateCustomDataIdentifierWithContext := fun _ s =>
    ((none, some (SdkError.awserr "ClientError" "not ready")), s)

/-- A Macie service without state whose create call always fails with a
validation error. -/
def Example.macieInvalid : Macie2 Unit where
  CreateCustomDataIdentifierWithContext := fun _ s =>
    ((none, some (SdkError.awserr "ValidationException" "bad regex")), s)

/-- A Macie service that counts the create calls it has received: the first
one fails with the client error code, every later one succeeds. -/
def Example.macieFlaky : Macie2 Nat where
  CreateCustomDataIdentifierWithContext := fun _ n =>
    match n with
    | 0 => ((none, some (SdkError.awserr "ClientError" "not ready")), 1)
    | k + 1 => ((some { CustomDataIdentifierId := some "cdi-1" }, none), k + 2)

/-- An environment with a fixed token, no tags, and the attribute `name` as
the name. -/
def Example.env : CreateEnv :=
  { UniqueId := "token", TagsIn := [], Name := fun name _ => name }

/-- Resource data with a name and a regex, before an ID is set. -/
def Example.identifier : schema.ResourceData :=
  { Id := "", regex := "[0-9]+", keywords := [], ignore_words := [], name := "digits",
    name_prefix := "", description := "", maximum_match_distance := 0 }

/-- A read that changes nothing and reports nothing. -/
def Example.readNothing {σ : Type} (d : schema.ResourceData) (w : Macie2World σ) :
    CreateResult σ :=
  { Diagnostics := [], Data := d, World := w }

/-- Planned data for group `G` with the target `A` in zone `z1` and the target
`B`. -/
def Example.planDrift : resourceTargetGroupRegistrationData :=
  ⟨.value "G", .value [Example.targetAz1, Example.targetB], .value "G"⟩

/-- Prior state for group `G` with the target `B` and the target `A` in zone
`z2`. -/
def Example.stateDrift : resourceTargetGroupRegistrationData :=
  ⟨.value "G", .value [Example.targetB, Example.targetAz2], .value "G"⟩

/-! ## Auxiliary lemmas -/

theorem foldl_snoc_map {α β : Type} (f : α → β) (l : List α) (init : List β) :
    l.foldl (fun acc x => acc ++ [f x]) init = init ++ l.map f := by
  induction l generalizing init with
  | nil => simp
  | cons a l ih => simp [ih]

theorem expandTargets_eq (tfList : List targetData) :
    expandTargets tfList = if tfList = [] then none else some (tfList.map expandTarget) := by
  unfold expandTargets
  cases tfList with
  | nil => simp
  | cons a l => simp [foldl_snoc_map]

theorem expandTargets_getD (tfList : List targetData) :
    (expandTargets tfList).getD [] = tfList.map expandTarget := by
  rw [expandTargets_eq]
  cases tfList <;> simp

theorem Difference_self {α : Type} [DecidableEq α] (s : List α) :
    flex.Set.Difference s s = [] := by
  unfold flex.Set.Difference
  rw [List.filter_eq_nil_iff]
  intro a ha
  simp [ha]

theorem mem_Difference {α : Type} [DecidableEq α] (s ns : List α) (a : α) :
    a ∈ flex.Set.Difference s ns ↔ a ∈ s ∧ a ∉ ns := by
  simp [flex.Set.Difference]

theorem Update_targets_eq (plan state : resourceTargetGroupRegistrationData) :
    resourceTargetGroupRegistration.Update.targets plan state = ([], []) := by
  simp [resourceTargetGroupRegistration.Update.targets, Difference_self]

theorem HasError_AddError (ds : diag.Diagnostics) (summary detail : GoString) :
    diag.HasError (diag.AddError ds summary detail) = true := by
  unfold diag.AddError diag.HasError
  simp only
  split
  · rename_i h
    rw [List.any_eq_true]
    exact ⟨_, by simpa using h, by simp⟩
  · simp

theorem issued_append {σ : Type} (w0 w1 : World σ) (cs : List Call)
    (h : w1.calls = w0.calls ++ cs) : w0.issued w1 = cs := by
  simp [World.issued, h]

theorem Update_apply_cases {σ : Type} (conn : ELBV2 σ)
    (plan state : resourceTargetGroupRegistrationData)
    (regTargets deregTargets : List targetData) (resp : Response) (w : World σ) :
    ∃ ds rs,
      (resourceTargetGroupRegistration.Update.apply conn plan state
        regTargets deregTargets resp w).2.calls = w.calls ++ (ds ++ rs) ∧
      ds = (if deregTargets = [] then []
        else [Call.DeregisterTargets ⟨some state.TargetGroupARN.ValueString,
          expandTargets deregTargets⟩]) ∧
      (rs = [] ∨ rs = [Call.RegisterTargets ⟨some plan.TargetGroupARN.ValueString,
          expandTargets regTargets⟩]) ∧
      (∀ e, deregTargets ≠ [] →
        (conn.DeregisterTargetsWithContext ⟨some state.TargetGroupARN.ValueString,
          expandTargets deregTargets⟩ w.remote).1 = some e →
        rs = [] ∧
        (resourceTargetGroupRegistration.Update.apply conn plan state
          regTargets deregTargets resp w).1.2 = true ∧
        (tfawserr.ErrCodeEquals (some e) elbv2.ErrCodeTargetGroupNotFoundException = true →
          (resourceTargetGroupRegistration.Update.apply conn plan state
            regTargets deregTargets resp w).1.1 = resp) ∧
        (tfawserr.ErrCodeEquals (some e) elbv2.ErrCodeTargetGroupNotFoundException = false →
          diag.HasError (resourceTargetGroupRegistration.Update.apply conn plan state
            regTargets deregTargets resp w).1.1.Diagnostics = true)) := by
  unfold resourceTargetGroupRegistration.Update.apply
  simp only [World.deregister, World.register]
  by_cases hd : deregTargets = []
  · subst hd
    by_cases hr : regTargets = []
    · subst hr
      exact ⟨[], [], by simp, by simp, by simp, by simp⟩
    · have hr' : regTargets.length > 0 := List.length_pos.mpr hr
      refine ⟨[], [Call.RegisterTargets _], ?_, by simp, Or.inr rfl, by simp⟩
      simp only [List.length_nil, gt_iff_lt, lt_self_iff_false, if_false, hr', if_true,
        Bool.false_eq_true]
      split <;> simp
  · have hd' : deregTargets.length > 0 := List.length_pos.mpr hd
    simp only [hd', if_true, hd, if_false]
    cases hresp : (conn.DeregisterTargetsWithContext ⟨some state.TargetGroupARN.ValueString,
          expandTargets deregTargets⟩ w.remote).1 with
    | some e =>
      by_cases hc : tfawserr.ErrCodeEquals (some e) elbv2.ErrCodeTargetGroupNotFoundException = true
      · refine ⟨_, [], ?_, rfl, Or.inl rfl, ?_⟩
        · simp [hc]
        · intro e' _ he'
          cases he'
          simp [hc]
      · refine ⟨_, [], ?_, rfl, Or.inl rfl, ?_⟩
        · simp [hc]
        · intro e' _ he'
          cases he'
          simp [hc, HasError_AddError]
    | none =>
      by_cases hr : regTargets = []
      · subst hr
        exact ⟨_, [], by simp, rfl, Or.inl rfl, by simp⟩
      · have hr' : regTargets.length > 0 := List.length_pos.mpr hr
        refine ⟨_, [Call.RegisterTargets _], ?_, rfl, Or.inr rfl, by simp⟩
        simp only [hr', if_true, Bool.false_eq_true, if_false]
        split <;> simp

theorem Update_eq {σ : Type} (conn : ELBV2 σ) (req : UpdateRequest) (w : World σ) :
    resourceTargetGroupRegistration.Update conn req w
      = ({ State := some req.Plan, Diagnostics := [] }, w) := by
  unfold resourceTargetGroupRegistration.Update
  simp only [Update_targets_eq]
  unfold resourceTargetGroupRegistration.Update.apply
  split <;> simp

theorem issued_self {σ : Type} (w : World σ) : w.issued w = [] := by
  simp [World.issued]

theorem flattenTargets_diags (apiObjects : List (Option elbv2.TargetHealthDescription)) :
    (flattenTargets apiObjects).2 = [] := by
  unfold flattenTargets
  split <;> rfl

theorem Registry.not_mem_idsOf_remove (r : Registry) (g : GoString)
    (ts : List elbv2.TargetDescription) (t : elbv2.TargetDescription) (ht : t ∈ ts) :
    t.Id ∉ (r.remove g ts).idsOf g := by
  intro hmem
  simp only [Registry.idsOf, Registry.targetsOf, Registry.remove, List.mem_map,
    List.mem_filter] at hmem
  obtain ⟨u, ⟨m, ⟨⟨_, hkeep⟩, hg⟩, rfl⟩, hid⟩ := hmem
  have hnamed : Registry.named ts m.2 = true := by
    unfold Registry.named
    rw [List.any_eq_true]
    exact ⟨t, ht, by simp [hid]⟩
  simp [hg, hnamed] at hkeep

theorem expandTarget_fields (t : targetData) :
    (expandTarget t).Id = some t.TargetID.ValueString ∧
    (expandTarget t).AvailabilityZone
      = (if t.AvailabilityZone.IsNull then none else some t.AvailabilityZone.ValueString) ∧
    (expandTarget t).Port
      = (if t.Port.IsNull || t.Port.IsUnknown then none else some t.Port.ValueInt64) := by
  unfold expandTarget
  cases hz : t.AvailabilityZone.IsNull <;> cases hp : t.Port.IsNull <;>
    cases hu : t.Port.IsUnknown <;> simp

theorem flattenTargets_foldl (l : List (Option elbv2.TargetHealthDescription))
    (init : List targetData) :
    l.foldl (fun (elems : List targetData) apiObject =>
      match apiObject with
      | none => elems
      | some d =>
        match d.Target with
        | none => elems
        | some target =>
          elems ++ [{ AvailabilityZone := flex.StringToFramework target.AvailabilityZone,
                      Port := flex.Int64ToFramework target.Port,
                      TargetID := flex.StringToFramework target.Id }]) init
      = init ++ l.filterMap (fun apiObject =>
          (apiObject.bind (fun d => d.Target)).map (fun target =>
            ({ AvailabilityZone := flex.StringToFramework target.AvailabilityZone,
               Port := flex.Int64ToFramework target.Port,
               TargetID := flex.StringToFramework target.Id } : targetData))) := by
  induction l generalizing init with
  | nil => simp
  | cons a l ih =>
    rw [List.foldl_cons, ih]
    cases a with
    | none => simp
    | some d =>
      cases hT : d.Target with
      | none => simp [hT]
      | some t => simp [hT]

theorem RetryContext_loop_succ {S : Type} (f : S → Option retry.RetryError × S)
    (budget : Nat) (resultErr : Option SdkError) (s : S) :
    retry.RetryContext.loop f (budget + 1) resultErr s
      = match (f s).1 with
        | none => (none, (f s).2)
        | some rerr =>
          if rerr.Retryable then retry.RetryContext.loop f budget (some rerr.Err) (f s).2
          else (some (retry.Failure.fn rerr.Err), (f s).2) := by
  rw [retry.RetryContext.loop]
  rcases h : f s with ⟨_ | rerr, s1⟩ <;> simp

theorem RetryContext_loop_some_ne_timeout {S : Type} (f : S → Option retry.RetryError × S)
    (budget : Nat) (e : SdkError) (s : S) (last : Option SdkError) :
    (retry.RetryContext.loop f budget (some e) s).1
      ≠ some (retry.Failure.TimeoutError last) := by
  induction budget generalizing e s with
  | zero => simp [retry.RetryContext.loop]
  | succ n ih =>
    rw [RetryContext_loop_succ]
    rcases h : (f s).1 with _ | rerr
    · simp
    · by_cases hr : rerr.Retryable = true
      · simpa [hr] using ih rerr.Err (f s).2
      · simp [hr]

theorem RetryContext_loop_succ_ne_timeout {S : Type} (f : S → Option retry.RetryError × S)
    (budget : Nat) (resultErr : Option SdkError) (s : S) (last : Option SdkError) :
    (retry.RetryContext.loop f (budget + 1) resultErr s).1
      ≠ some (retry.Failure.TimeoutError last) := by
  rw [RetryContext_loop_succ]
  rcases h : (f s).1 with _ | rerr
  · simp
  · by_cases hr : rerr.Retryable = true
    · simpa [hr] using RetryContext_loop_some_ne_timeout f budget rerr.Err (f s).2 last
    · simp [hr]

theorem attempt_eq {σ : Type} (conn : Macie2 σ)
    (input : macie2.CreateCustomDataIdentifierInput) (v : CreateVars σ) :
    resourceCustomDataIdentifierCreate.attempt conn input v
      = ((v.call conn input).err.map (fun e => (⟨e, tfawserr.ErrCodeEquals (some e)
          macie2.ErrorCodeClientError⟩ : retry.RetryError)), v.call conn input) := by
  unfold resourceCustomDataIdentifierCreate.attempt
  rcases h : (v.call conn input).err with _ | e
  · simp [h]
  · by_cases hc : tfawserr.ErrCodeEquals (some e) macie2.ErrorCodeClientError = true
    · simp [h, hc, retry.RetryableError]
    · simp [h, hc, retry.NonRetryableError]

theorem call_creates {σ : Type} (conn : Macie2 σ)
    (input : macie2.CreateCustomDataIdentifierInput) (v : CreateVars σ) :
    (v.call conn input).world.creates = v.world.creates ++ [input] := rfl

theorem RetryContext_loop_creates_le {σ : Type} (conn : Macie2 σ)
    (input : macie2.CreateCustomDataIdentifierInput) (budget : Nat)
    (resultErr : Option SdkError) (v : CreateVars σ) :
    (retry.RetryContext.loop (resourceCustomDataIdentifierCreate.attempt conn input)
      budget resultErr v).2.world.creates.length ≤ v.world.creates.length + budget := by
  induction budget generalizing resultErr v with
  | zero => cases resultErr <;> simp [retry.RetryContext.loop]
  | succ n ih =>
    rw [RetryContext_loop_succ, attempt_eq]
    rcases h : (v.call conn input).err with _ | e
    · simp [call_creates]
    · by_cases hc : tfawserr.ErrCodeEquals (some e) macie2.ErrorCodeClientError = true
      · simp only [Option.map_some', hc, if_true]
        have := ih (some e) (v.call conn input)
        rw [call_creates] at this
        simp at this
        omega
      · simp [hc, call_creates]

/-- Lines 185-218 of `Update` taken on their own, for every pair of target
lists: no register call is logged before a deregister call, a non-empty
to-deregister list makes the deregister call the first call issued, and when
that call fails with an error whose code is not target-group-not-found, an
error diagnostic is recorded, the handler returns, and no register call is
issued.  `Update` passes the always empty lists of lines 165-182 to these
lines, so it reaches neither call. -/
theorem Update_apply_order_and_failure {σ : Type} (conn : ELBV2 σ)
    (plan state : resourceTargetGroupRegistrationData)
    (regTargets deregTargets : List targetData) (resp : Response) (w : World σ) :
    let input : elbv2.DeregisterTargetsInput :=
      { TargetGroupArn := some state.TargetGroupARN.ValueString,
        Targets := expandTargets deregTargets }
    let r := resourceTargetGroupRegistration.Update.apply conn plan state
      regTargets deregTargets resp w
    r.2.calls = w.calls ++ w.issued r.2 ∧
    (w.issued r.2).Pairwise (fun a b => ¬ (a.isRegister = true ∧ b.isDeregister = true)) ∧
    (deregTargets ≠ [] → (w.issued r.2).head? = some (Call.DeregisterTargets input)) ∧
    (∀ e, deregTargets ≠ [] →
      (conn.DeregisterTargetsWithContext input w.remote).1 = some e →
      tfawserr.ErrCodeEquals (some e) elbv2.ErrCodeTargetGroupNotFoundException = false →
      diag.HasError r.1.1.Diagnostics = true ∧ r.1.2 = true ∧
        w.issued r.2 = [Call.DeregisterTargets input]) ∧
    (∀ req : UpdateRequest,
      let u := resourceTargetGroupRegistration.Update conn req w
      u.2.calls = w.calls ++ w.issued u.2 ∧
      (w.issued u.2).Pairwise
        (fun a b => ¬ (a.isRegister = true ∧ b.isDeregister = true))) := by
  intro input r
  obtain ⟨ds, rs, hcalls, hds, hrs, herr⟩ :=
    Update_apply_cases conn plan state regTargets deregTargets resp w
  have hiss : w.issued r.2 = ds ++ rs := issued_append w r.2 _ hcalls
  refine ⟨by rw [hiss]; exact hcalls, ?_, ?_, ?_, ?_⟩
  · rw [hiss, hds]
    by_cases hd : deregTargets = [] <;> rcases hrs with h | h <;>
      simp [hd, h, Call.isRegister, Call.isDeregister]
  · intro hd
    rw [hiss, hds]
    simp [hd, input]
  · intro e hd he hc
    obtain ⟨h1, h2, _, h4⟩ := herr e hd he
    refine ⟨h4 hc, h2, ?_⟩
    rw [hiss, hds, h1]
    simp [hd, input]
  · intro req
    simp [Update_eq, issued_self]

theorem Update_apply_order_and_failure_example :
    [Example.targetC] ≠ [] ∧
    (Example.throttled.DeregisterTargetsWithContext
      ⟨some Example.stateBC.TargetGroupARN.ValueString, expandTargets [Example.targetC]⟩ ()).1
        = some (SdkError.awserr "Throttling" "slow down") ∧
    tfawserr.ErrCodeEquals (some (SdkError.awserr "Throttling" "slow down"))
      elbv2.ErrCodeTargetGroupNotFoundException = false ∧
    (diag.HasError (resourceTargetGroupRegistration.Update.apply Example.throttled
        Example.planAB Example.stateBC [Example.targetA] [Example.targetC]
        ⟨some Example.stateBC, []⟩ ⟨(), []⟩).1.1.Diagnostics = true ∧
      (resourceTargetGroupRegistration.Update.apply Example.throttled
        Example.planAB Example.stateBC [Example.targetA] [Example.targetC]
        ⟨some Example.stateBC, []⟩ ⟨(), []⟩).1.2 = true ∧
      World.issued ⟨(), []⟩ (resourceTargetGroupRegistration.Update.apply Example.throttled
        Example.planAB Example.stateBC [Example.targetA] [Example.targetC]
        ⟨some Example.stateBC, []⟩ ⟨(), []⟩).2
        = [Call.DeregisterTargets ⟨some Example.stateBC.TargetGroupARN.ValueString,
            expandTargets [Example.targetC]⟩]) :=
  ⟨by decide, rfl, by decide,
    (Update_apply_order_and_failure Example.throttled Example.planAB Example.stateBC
      [Example.targetA] [Example.targetC] ⟨some Example.stateBC, []⟩ ⟨(), []⟩).2.2.2.1
      _ (by decide) rfl (by decide)⟩

/-! ## Claims -/

/-- C1, evaluated on the code: for the plan `{A, B}` and the prior state
`{B, C}` the difference of the plan against the state is `{A}` and that of the
state against the plan is `{C}`, but `Update` computes an empty to-register
list and an empty to-deregister list, and issues no call against the reference
registry. -/
theorem update_targets_plan_AB_state_BC :
    flex.Set.Difference Example.planAB.Target.ElementsAs Example.stateBC.Target.ElementsAs
        = [Example.targetA] ∧
      flex.Set.Difference Example.stateBC.Target.ElementsAs Example.planAB.Target.ElementsAs
        = [Example.targetC] ∧
      resourceTargetGroupRegistration.Update.targets Example.planAB Example.stateBC
        = ([], []) ∧
      (resourceTargetGroupRegistration.Update Registry.conn
        ⟨Example.planAB, Example.stateBC⟩ ⟨Example.registryBC, []⟩).2.calls = [] := by
  decide

/-- C2, evaluated on the code: for the plan `{A, B}` and the prior state
`{B, C}` the two lists of `Update` are empty, hence duplicate-free and
disjoint, but the prior state without the to-deregister list and with the
to-register list still has the target IDs `B` and `C`, while the plan has `A`
and `B`: the ID `A` is in the one and not in the other. -/
theorem update_targets_do_not_reconcile :
    (resourceTargetGroupRegistration.Update.targets Example.planAB Example.stateBC).1.Nodup ∧
    (resourceTargetGroupRegistration.Update.targets Example.planAB Example.stateBC).2.Nodup ∧
    (resourceTargetGroupRegistration.Update.targets Example.planAB Example.stateBC).1.Disjoint
      (resourceTargetGroupRegistration.Update.targets Example.planAB Example.stateBC).2 ∧
    targetIDs (flex.Set.Difference Example.stateBC.Target.ElementsAs
        (resourceTargetGroupRegistration.Update.targets Example.planAB Example.stateBC).2
      ++ (resourceTargetGroupRegistration.Update.targets Example.planAB Example.stateBC).1)
      = [some "B", some "C"] ∧
    targetIDs Example.planAB.Target.ElementsAs = [some "A", some "B"] ∧
    ¬ (∀ i, i ∈ targetIDs (flex.Set.Difference Example.stateBC.Target.ElementsAs
          (resourceTargetGroupRegistration.Update.targets Example.planAB Example.stateBC).2
        ++ (resourceTargetGroupRegistration.Update.targets Example.planAB Example.stateBC).1)
      ↔ i ∈ targetIDs Example.planAB.Target.ElementsAs) := by
  have h : resourceTargetGroupRegistration.Update.targets Example.planAB Example.stateBC
      = ([], []) := Update_targets_eq _ _
  simp only [h]
  refine ⟨List.nodup_nil, List.nodup_nil, by simp, by decide, by decide, ?_⟩
  intro hall
  have hA := (hall (some "A")).2 (by decide)
  revert hA
  decide

/-- C3, evaluated on the code: for the plan `{A, B}` and the prior state
`{B, C}` the target `C` is to be deregistered, and the deregister call for it
fails on the remote service with a throttling error, which is not
target-group-not-found.  `Update` issues no deregister call and no register
call, records no diagnostic, and writes the plan as the new state. -/
theorem update_skips_failing_deregister_call :
    flex.Set.Difference Example.stateBC.Target.ElementsAs Example.planAB.Target.ElementsAs
      = [Example.targetC] ∧
    (Example.throttled.DeregisterTargetsWithContext
      ⟨some Example.stateBC.TargetGroupARN.ValueString,
        expandTargets [Example.targetC]⟩ ()).1
      = some (SdkError.awserr "Throttling" "slow down") ∧
    tfawserr.ErrCodeEquals (some (SdkError.awserr "Throttling" "slow down"))
      elbv2.ErrCodeTargetGroupNotFoundException = false ∧
    (resourceTargetGroupRegistration.Update Example.throttled
      ⟨Example.planAB, Example.stateBC⟩ ⟨(), []⟩).2.calls = [] ∧
    diag.HasError (resourceTargetGroupRegistration.Update Example.throttled
      ⟨Example.planAB, Example.stateBC⟩ ⟨(), []⟩).1.Diagnostics = false ∧
    (resourceTargetGroupRegistration.Update Example.throttled
      ⟨Example.planAB, Example.stateBC⟩ ⟨(), []⟩).1.State = some Example.planAB := by
  decide

/-- C4: when the deregister call answers with the target-group-not-found code,
lines 185-218 of `Update` return with the response as it was, so without a new
diagnostic, and `Delete` ends with no diagnostic at all.  Against the reference
registry, in any state and so also without the group, a `Delete` and a second
`Delete` after it both end with no diagnostic. -/
theorem deregister_not_found_is_success {σ : Type} (conn : ELBV2 σ)
    (plan state : resourceTargetGroupRegistrationData)
    (regTargets deregTargets : List targetData) (resp : Response) (w : World σ)
    (req : DeleteRequest) :
    (∀ e, deregTargets ≠ [] →
      (conn.DeregisterTargetsWithContext ⟨some state.TargetGroupARN.ValueString,
        expandTargets deregTargets⟩ w.remote).1 = some e →
      tfawserr.ErrCodeEquals (some e) elbv2.ErrCodeTargetGroupNotFoundException = true →
      (resourceTargetGroupRegistration.Update.apply conn plan state
        regTargets deregTargets resp w).1 = (resp, true)) ∧
    (∀ e,
      (conn.DeregisterTargetsWithContext ⟨some req.State.TargetGroupARN.ValueString,
        expandTargets req.State.Target.ElementsAs⟩ w.remote).1 = some e →
      tfawserr.ErrCodeEquals (some e) elbv2.ErrCodeTargetGroupNotFoundException = true →
      (resourceTargetGroupRegistration.Delete conn req w).1.Diagnostics = [] ∧
      diag.HasError (resourceTargetGroupRegistration.Delete conn req w).1.Diagnostics
        = false) ∧
    (∀ v : World Registry,
      let first := resourceTargetGroupRegistration.Delete Registry.conn req v
      let second := resourceTargetGroupRegistration.Delete Registry.conn req first.2
      first.1.Diagnostics = [] ∧ second.1.Diagnostics = []) := by
  refine ⟨?_, ?_, ?_⟩
  · intro e hd he hc
    obtain ⟨ds, rs, _, _, _, herr⟩ :=
      Update_apply_cases conn plan state regTargets deregTargets resp w
    obtain ⟨_, h2, h3, _⟩ := herr e hd he
    exact Prod.ext (h3 hc) h2
  · intro e he hc
    unfold resourceTargetGroupRegistration.Delete
    simp [World.deregister, he, hc, diag.HasError]
  · intro v
    have key : ∀ u : World Registry,
        (resourceTargetGroupRegistration.Delete Registry.conn req u).1.Diagnostics = [] := by
      intro u
      unfold resourceTargetGroupRegistration.Delete
      by_cases hg : req.State.TargetGroupARN.ValueString ∈ u.remote.groups
      · simp [World.deregister, Registry.conn, hg]
      · simp [World.deregister, Registry.conn, hg, Registry.notFound,
          tfawserr.ErrCodeEquals]
    exact ⟨key v, key _⟩

theorem deregister_not_found_is_success_witness :
    ([Example.targetC] ≠ [] ∧
      (Registry.conn.DeregisterTargetsWithContext
        ⟨some Example.stateBC.TargetGroupARN.ValueString,
          expandTargets [Example.targetC]⟩ Example.registryNoGroup).1
          = some Registry.notFound ∧
      tfawserr.ErrCodeEquals (some Registry.notFound)
        elbv2.ErrCodeTargetGroupNotFoundException = true ∧
      (resourceTargetGroupRegistration.Update.apply Registry.conn Example.planAB
        Example.stateBC [Example.targetA] [Example.targetC] ⟨some Example.stateBC, []⟩
        ⟨Example.registryNoGroup, []⟩).1 = (⟨some Example.stateBC, []⟩, true)) ∧
    ((Registry.conn.DeregisterTargetsWithContext
        ⟨some Example.stateBC.TargetGroupARN.ValueString,
          expandTargets Example.stateBC.Target.ElementsAs⟩ Example.registryNoGroup).1
          = some Registry.notFound ∧
      (resourceTargetGroupRegistration.Delete Registry.conn ⟨Example.stateBC⟩
          ⟨Example.registryNoGroup, []⟩).1.Diagnostics = [] ∧
      diag.HasError (resourceTargetGroupRegistration.Delete Registry.conn ⟨Example.stateBC⟩
          ⟨Example.registryNoGroup, []⟩).1.Diagnostics = false) :=
  ⟨⟨by decide, by decide, by decide,
      (deregister_not_found_is_success Registry.conn Example.planAB Example.stateBC
        [Example.targetA] [Example.targetC] ⟨some Example.stateBC, []⟩
        ⟨Example.registryNoGroup, []⟩ ⟨Example.stateBC⟩).1 Registry.notFound
        (by decide) (by decide) (by decide)⟩,
    ⟨by decide,
      (deregister_not_found_is_success Registry.conn Example.planAB Example.stateBC
        [Example.targetA] [Example.targetC] ⟨some Example.stateBC, []⟩
        ⟨Example.registryNoGroup, []⟩ ⟨Example.stateBC⟩).2.1 Registry.notFound
        (by decide) (by decide)⟩⟩

/-- C5: with `d` the answer of the describe call, the finder returns a
`retry.NotFoundError` exactly when the error of `d` has the
target-group-not-found code; it returns any other error of `d` unchanged; when
`d` has no error it returns an `EmptyResultError` if the output or its
description list is nil, and otherwise the description list itself, an explicit
empty list included, with no error. -/
theorem find_by_multipart_key_results {σ : Type} (conn : ELBV2 σ)
    (targetGroupARN : GoString) (targets : List targetData) (w : World σ) :
    let input : elbv2.DescribeTargetHealthInput :=
      { TargetGroupArn := some targetGroupARN, Targets := expandTargets targets }
    let d := (conn.DescribeTargetHealthWithContext input w.remote).1
    let r := (findTargetGroupRegistrationByMultipartKey conn targetGroupARN targets w).1
    ((∃ last request, r.2 = some (error.NotFoundError last request)) ↔
      tfawserr.ErrCodeEquals d.2 elbv2.ErrCodeTargetGroupNotFoundException = true) ∧
    (tfawserr.ErrCodeEquals d.2 elbv2.ErrCodeTargetGroupNotFoundException = true →
      r = (none, some (error.NotFoundError d.2 input))) ∧
    (∀ e, d.2 = some e →
      tfawserr.ErrCodeEquals d.2 elbv2.ErrCodeTargetGroupNotFoundException = false →
      r = (none, some (error.sdk e))) ∧
    (d.2 = none → (d.1 = none ∨ ∃ o, d.1 = some o ∧ o.TargetHealthDescriptions = none) →
      r = (none, some (error.EmptyResultError input))) ∧
    (∀ o l, d.2 = none → d.1 = some o → o.TargetHealthDescriptions = some l →
      r = (some l, none)) := by
  unfold findTargetGroupRegistrationByMultipartKey
  simp only [World.describe]
  generalize conn.DescribeTargetHealthWithContext _ w.remote = ans
  obtain ⟨⟨out, err⟩, s⟩ := ans
  cases err with
  | none =>
    cases out with
    | none => simp [tfawserr.ErrCodeEquals]
    | some o =>
      cases h : o.TargetHealthDescriptions <;> simp [tfawserr.ErrCodeEquals, h]
      · intro o1 l ho hl
        subst ho
        rw [h] at hl
        cases hl
      · intro o1 l ho hl
        subst ho
        rw [h] at hl
        exact Option.some.inj hl
  | some e =>
    by_cases hc : tfawserr.ErrCodeEquals (some e) elbv2.ErrCodeTargetGroupNotFoundException
      = true
    · simp [hc]
    · simp [hc]

theorem find_by_multipart_key_results_witness :
    ((Registry.conn.DescribeTargetHealthWithContext
        ⟨some "G", expandTargets []⟩ Example.registryEmpty).1.2 = none ∧
      (Registry.conn.DescribeTargetHealthWithContext
        ⟨some "G", expandTargets []⟩ Example.registryEmpty).1.1 = some ⟨some []⟩ ∧
      (⟨some []⟩ : elbv2.DescribeTargetHealthOutput).TargetHealthDescriptions = some [] ∧
      (findTargetGroupRegistrationByMultipartKey Registry.conn "G" []
        ⟨Example.registryEmpty, []⟩).1 = (some [], none)) ∧
    (tfawserr.ErrCodeEquals (Registry.conn.DescribeTargetHealthWithContext
        ⟨some "G", expandTargets []⟩ Example.registryNoGroup).1.2
        elbv2.ErrCodeTargetGroupNotFoundException = true ∧
      (findTargetGroupRegistrationByMultipartKey Registry.conn "G" []
        ⟨Example.registryNoGroup, []⟩).1
        = (none, some (error.NotFoundError (some Registry.notFound)
            ⟨some "G", expandTargets []⟩))) ∧
    ((Example.throttled.DescribeTargetHealthWithContext
        ⟨some "G", expandTargets []⟩ ()).1.2
        = some (SdkError.awserr "Throttling" "slow down") ∧
      tfawserr.ErrCodeEquals (Example.throttled.DescribeTargetHealthWithContext
        ⟨some "G", expandTargets []⟩ ()).1.2
        elbv2.ErrCodeTargetGroupNotFoundException = false ∧
      (findTargetGroupRegistrationByMultipartKey Example.throttled "G" [] ⟨(), []⟩).1
        = (none, some (error.sdk (SdkError.awserr "Throttling" "slow down")))) ∧
    ((Example.hollow.DescribeTargetHealthWithContext
        ⟨some "G", expandTargets []⟩ ()).1.2 = none ∧
      (∃ o, (Example.hollow.DescribeTargetHealthWithContext
        ⟨some "G", expandTargets []⟩ ()).1.1 = some o ∧ o.TargetHealthDescriptions = none) ∧
      (findTargetGroupRegistrationByMultipartKey Example.hollow "G" [] ⟨(), []⟩).1
        = (none, some (error.EmptyResultError ⟨some "G", expandTargets []⟩))) :=
  ⟨⟨by decide, by decide, rfl,
      (find_by_multipart_key_results Registry.conn "G" []
        ⟨Example.registryEmpty, []⟩).2.2.2.2 ⟨some []⟩ [] (by decide) (by decide) rfl⟩,
    ⟨by decide,
      (find_by_multipart_key_results Registry.conn "G" []
        ⟨Example.registryNoGroup, []⟩).2.1 (by decide)⟩,
    ⟨rfl, by decide,
      (find_by_multipart_key_results Example.throttled "G" [] ⟨(), []⟩).2.2.1
        (SdkError.awserr "Throttling" "slow down") rfl (by decide)⟩,
    ⟨rfl, ⟨⟨none⟩, rfl, rfl⟩,
      (find_by_multipart_key_results Example.hollow "G" [] ⟨(), []⟩).2.2.2.1
        rfl (Or.inr ⟨⟨none⟩, rfl, rfl⟩)⟩⟩

/-- C6, refuted as stated: when the describe call of `Read` answers with no
error and a payload without a description list, the finder returns an
`EmptyResultError`, `tfresource.NotFound` holds for it, and `Read` removes the
resource from the state without a diagnostic; it does not record an error and
it does not keep the prior state. -/
theorem read_removes_resource_on_empty_result :
    (findTargetGroupRegistrationByMultipartKey Example.hollow
        Example.stateBC.TargetGroupARN.ValueString Example.stateBC.Target.ElementsAs
        ⟨(), []⟩).1
      = (none, some (error.EmptyResultError
          ⟨some Example.stateBC.TargetGroupARN.ValueString,
            expandTargets Example.stateBC.Target.ElementsAs⟩)) ∧
    diag.HasError (resourceTargetGroupRegistration.Read Example.hollow
      ⟨Example.stateBC⟩ ⟨(), []⟩).1.Diagnostics = false ∧
    (resourceTargetGroupRegistration.Read Example.hollow
      ⟨Example.stateBC⟩ ⟨(), []⟩).1.State = none ∧
    (resourceTargetGroupRegistration.Read Example.hollow
      ⟨Example.stateBC⟩ ⟨(), []⟩).1.State ≠ some Example.stateBC := by
  decide

/-- C6, amended: with `d` the answer of the describe call of `Read`: if the
error of `d` has the target-group-not-found code, or `d` has no error and a nil
output or a nil description list, the resource is removed from the state and no
diagnostic is recorded; if `d` has any other error, an error diagnostic is
recorded and the state stays the prior state; if `d` has no error and a
description list, no diagnostic is recorded and the new state is the prior
state with its target set replaced by the flattened description list, ID and
target group ARN as they were. -/
theorem read_results {σ : Type} (conn : ELBV2 σ) (req : ReadRequest) (w : World σ) :
    let input : elbv2.DescribeTargetHealthInput :=
      { TargetGroupArn := some req.State.TargetGroupARN.ValueString,
        Targets := expandTargets req.State.Target.ElementsAs }
    let d := (conn.DescribeTargetHealthWithContext input w.remote).1
    let r := (resourceTargetGroupRegistration.Read conn req w).1
    (tfawserr.ErrCodeEquals d.2 elbv2.ErrCodeTargetGroupNotFoundException = true →
      r.State = none ∧ r.Diagnostics = []) ∧
    (∀ e, d.2 = some e →
      tfawserr.ErrCodeEquals d.2 elbv2.ErrCodeTargetGroupNotFoundException = false →
      diag.HasError r.Diagnostics = true ∧ r.State = some req.State) ∧
    (d.2 = none → (d.1 = none ∨ ∃ o, d.1 = some o ∧ o.TargetHealthDescriptions = none) →
      r.State = none ∧ r.Diagnostics = []) ∧
    (∀ o l, d.2 = none → d.1 = some o → o.TargetHealthDescriptions = some l →
      r.Diagnostics = [] ∧
      r.State = some { ID := req.State.ID, Target := (flattenTargets l).1,
                       TargetGroupARN := req.State.TargetGroupARN }) := by
  unfold resourceTargetGroupRegistration.Read findTargetGroupRegistrationByMultipartKey
  simp only [World.describe]
  generalize conn.DescribeTargetHealthWithContext _ w.remote = ans
  obtain ⟨⟨out, err⟩, s⟩ := ans
  cases err with
  | none =>
    cases out with
    | none => simp [tfawserr.ErrCodeEquals, tfresource.NotFound, HasError_AddError]
    | some o =>
      cases h : o.TargetHealthDescriptions <;>
        simp [tfawserr.ErrCodeEquals, tfresource.NotFound, HasError_AddError, h]
      · intro o1 l ho hl
        subst ho
        rw [h] at hl
        cases hl
      · intro o1 l ho hl
        subst ho
        rw [h] at hl
        cases hl
        simp [flattenTargets_diags]
  | some e =>
    by_cases hc : tfawserr.ErrCodeEquals (some e) elbv2.ErrCodeTargetGroupNotFoundException
      = true
    · simp [hc, tfresource.NotFound]
    · simp [hc, tfresource.NotFound, HasError_AddError]

theorem read_results_witness :
    (tfawserr.ErrCodeEquals (Registry.conn.DescribeTargetHealthWithContext
        ⟨some Example.stateBC.TargetGroupARN.ValueString,
          expandTargets Example.stateBC.Target.ElementsAs⟩ Example.registryNoGroup).1.2
        elbv2.ErrCodeTargetGroupNotFoundException = true ∧
      (resourceTargetGroupRegistration.Read Registry.conn ⟨Example.stateBC⟩
        ⟨Example.registryNoGroup, []⟩).1.State = none ∧
      (resourceTargetGroupRegistration.Read Registry.conn ⟨Example.stateBC⟩
        ⟨Example.registryNoGroup, []⟩).1.Diagnostics = []) ∧
    ((Example.throttled.DescribeTargetHealthWithContext
        ⟨some Example.stateBC.TargetGroupARN.ValueString,
          expandTargets Example.stateBC.Target.ElementsAs⟩ ()).1.2
        = some (SdkError.awserr "Throttling" "slow down") ∧
      diag.HasError (resourceTargetGroupRegistration.Read Example.throttled
        ⟨Example.stateBC⟩ ⟨(), []⟩).1.Diagnostics = true ∧
      (resourceTargetGroupRegistration.Read Example.throttled
        ⟨Example.stateBC⟩ ⟨(), []⟩).1.State = some Example.stateBC) ∧
    ((Example.hollow.DescribeTargetHealthWithContext
        ⟨some Example.stateBC.TargetGroupARN.ValueString,
          expandTargets Example.stateBC.Target.ElementsAs⟩ ()).1.2 = none ∧
      (resourceTargetGroupRegistration.Read Example.hollow
        ⟨Example.stateBC⟩ ⟨(), []⟩).1.State = none ∧
      (resourceTargetGroupRegistration.Read Example.hollow
        ⟨Example.stateBC⟩ ⟨(), []⟩).1.Diagnostics = []) ∧
    ((Registry.conn.DescribeTargetHealthWithContext
        ⟨some Example.planAB.TargetGroupARN.ValueString,
          expandTargets Example.planAB.Target.ElementsAs⟩ Example.registryBC).1.2 = none ∧
      (resourceTargetGroupRegistration.Read Registry.conn ⟨Example.planAB⟩
        ⟨Example.registryBC, []⟩).1.Diagnostics = [] ∧
      (resourceTargetGroupRegistration.Read Registry.conn ⟨Example.planAB⟩
        ⟨Example.registryBC, []⟩).1.State
        = some ⟨.value "G", .value [Example.targetB], .value "G"⟩) :=
  ⟨⟨by decide,
      (read_results Registry.conn ⟨Example.stateBC⟩
        ⟨Example.registryNoGroup, []⟩).1 (by decide)⟩,
    ⟨rfl,
      (read_results Example.throttled ⟨Example.stateBC⟩ ⟨(), []⟩).2.1
        (SdkError.awserr "Throttling" "slow down") rfl (by decide)⟩,
    ⟨rfl,
      (read_results Example.hollow ⟨Example.stateBC⟩ ⟨(), []⟩).2.2.1
        rfl (Or.inr ⟨⟨none⟩, rfl, rfl⟩)⟩,
    ⟨by decide,
      (read_results Registry.conn ⟨Example.planAB⟩ ⟨Example.registryBC, []⟩).2.2.2
        ⟨some [some ⟨none, some (expandTarget Example.targetB)⟩]⟩
        [some ⟨none, some (expandTarget Example.targetB)⟩]
        (by decide) (by decide) rfl⟩⟩

/-- C7: `Create` issues exactly one call, a register call for the target group
ARN of the plan that carries one target per member of the planned set, in
order.  If the call succeeds, no diagnostic is recorded and the state written
is the plan with the ID set to the known string of the ARN: the ID equals a
known ARN, and is non-empty when the ARN is; the target set is the planned
one.  If the call fails, an error diagnostic is recorded and no state is
written. -/
theorem create_results {σ : Type} (conn : ELBV2 σ) (req : CreateRequest) (w : World σ) :
    let input : elbv2.RegisterTargetsInput :=
      { TargetGroupArn := some req.Plan.TargetGroupARN.ValueString,
        Targets := expandTargets req.Plan.Target.ElementsAs }
    let r := resourceTargetGroupRegistration.Create conn req w
    r.2.calls = w.calls ++ [Call.RegisterTargets input] ∧
    w.issued r.2 = [Call.RegisterTargets input] ∧
    input.Targets.getD [] = req.Plan.Target.ElementsAs.map expandTarget ∧
    ((conn.RegisterTargetsWithContext input w.remote).1 = none →
      r.1.Diagnostics = [] ∧
      ∃ st, r.1.State = some st ∧
        st.ID = types.String.value req.Plan.TargetGroupARN.ValueString ∧
        st.Target = req.Plan.Target ∧
        st.TargetGroupARN = req.Plan.TargetGroupARN ∧
        (∀ G, req.Plan.TargetGroupARN = types.String.value G →
          st.ID = req.Plan.TargetGroupARN ∧ (G ≠ "" → st.ID.ValueString ≠ ""))) ∧
    (∀ e, (conn.RegisterTargetsWithContext input w.remote).1 = some e →
      diag.HasError r.1.Diagnostics = true ∧ r.1.State = none) := by
  intro input r
  have hcalls : r.2.calls = w.calls ++ [Call.RegisterTargets input] := by
    show (resourceTargetGroupRegistration.Create conn req w).2.calls = _
    unfold resourceTargetGroupRegistration.Create
    simp only [World.register]
    split <;> rfl
  refine ⟨hcalls, issued_append w r.2 _ hcalls, expandTargets_getD _, ?_, ?_⟩
  · intro hok
    show (resourceTargetGroupRegistration.Create conn req w).1.Diagnostics = [] ∧
      ∃ st, (resourceTargetGroupRegistration.Create conn req w).1.State = some st ∧ _
    unfold resourceTargetGroupRegistration.Create
    simp only [World.register]
    rw [hok]
    refine ⟨rfl, _, rfl, rfl, rfl, rfl, ?_⟩
    intro G hG
    simp [hG, types.String.ValueString]
  · intro e he
    show diag.HasError (resourceTargetGroupRegistration.Create conn req w).1.Diagnostics
      = true ∧ (resourceTargetGroupRegistration.Create conn req w).1.State = none
    unfold resourceTargetGroupRegistration.Create
    simp only [World.register]
    rw [he]
    simp [HasError_AddError]

theorem create_results_witness :
    ((Registry.conn.RegisterTargetsWithContext
        ⟨some Example.planAB.TargetGroupARN.ValueString,
          expandTargets Example.planAB.Target.ElementsAs⟩ Example.registryEmpty).1 = none ∧
      (resourceTargetGroupRegistration.Create Registry.conn ⟨Example.planAB⟩
        ⟨Example.registryEmpty, []⟩).1.Diagnostics = [] ∧
      ∃ st, (resourceTargetGroupRegistration.Create Registry.conn ⟨Example.planAB⟩
          ⟨Example.registryEmpty, []⟩).1.State = some st ∧
        st.ID = types.String.value "G" ∧
        st.Target = types.Set.value [Example.targetA, Example.targetB] ∧
        st.TargetGroupARN = types.String.value "G" ∧
        (∀ G, Example.planAB.TargetGroupARN = types.String.value G →
          st.ID = Example.planAB.TargetGroupARN ∧ (G ≠ "" → st.ID.ValueString ≠ ""))) ∧
    ((Example.throttled.RegisterTargetsWithContext
        ⟨some Example.planAB.TargetGroupARN.ValueString,
          expandTargets Example.planAB.Target.ElementsAs⟩ ()).1
        = some (SdkError.awserr "Throttling" "slow down") ∧
      diag.HasError (resourceTargetGroupRegistration.Create Example.throttled
        ⟨Example.planAB⟩ ⟨(), []⟩).1.Diagnostics = true ∧
      (resourceTargetGroupRegistration.Create Example.throttled
        ⟨Example.planAB⟩ ⟨(), []⟩).1.State = none) :=
  ⟨⟨by decide,
      (create_results Registry.conn ⟨Example.planAB⟩
        ⟨Example.registryEmpty, []⟩).2.2.2.1 (by decide)⟩,
    ⟨rfl,
      (create_results Example.throttled ⟨Example.planAB⟩ ⟨(), []⟩).2.2.2.2
        (SdkError.awserr "Throttling" "slow down") rfl⟩⟩

/-- C8: `Delete` issues exactly one call, a deregister call for the target
group ARN of the prior state that carries one target per member of the prior
target set, in order; no register call is issued.  Against the reference
registry, when that call succeeds, `Delete` records no diagnostic and
afterwards no member of the prior target set is registered in the group. -/
theorem delete_results {σ : Type} (conn : ELBV2 σ) (req : DeleteRequest) (w : World σ)
    (v : World Registry) :
    let input : elbv2.DeregisterTargetsInput :=
      { TargetGroupArn := some req.State.TargetGroupARN.ValueString,
        Targets := expandTargets req.State.Target.ElementsAs }
    let r := resourceTargetGroupRegistration.Delete conn req w
    let q := resourceTargetGroupRegistration.Delete Registry.conn req v
    r.2.calls = w.calls ++ [Call.DeregisterTargets input] ∧
    w.issued r.2 = [Call.DeregisterTargets input] ∧
    input.Targets.getD [] = req.State.Target.ElementsAs.map expandTarget ∧
    (∀ c ∈ w.issued r.2, c.isRegister = false) ∧
    ((Registry.conn.DeregisterTargetsWithContext input v.remote).1 = none →
      q.1.Diagnostics = [] ∧
      ∀ t ∈ req.State.Target.ElementsAs,
        (expandTarget t).Id ∉ q.2.remote.idsOf req.State.TargetGroupARN.ValueString) := by
  intro input r q
  have hcalls : r.2.calls = w.calls ++ [Call.DeregisterTargets input] := by
    show (resourceTargetGroupRegistration.Delete conn req w).2.calls = _
    unfold resourceTargetGroupRegistration.Delete
    simp only [World.deregister]
    repeat' split
    all_goals rfl
  have hiss := issued_append w r.2 _ hcalls
  refine ⟨hcalls, hiss, expandTargets_getD _, ?_, ?_⟩
  · intro c hc
    rw [hiss] at hc
    simp only [List.mem_singleton] at hc
    rw [hc]
    rfl
  · intro hok
    have hg : req.State.TargetGroupARN.ValueString ∈ v.remote.groups := by
      by_contra hg
      simp [Registry.conn, hg] at hok
    show (resourceTargetGroupRegistration.Delete Registry.conn req v).1.Diagnostics = [] ∧
      ∀ t ∈ req.State.Target.ElementsAs, (expandTarget t).Id ∉
        (resourceTargetGroupRegistration.Delete Registry.conn req v).2.remote.idsOf
          req.State.TargetGroupARN.ValueString
    unfold resourceTargetGroupRegistration.Delete
    simp only [World.deregister, Registry.conn, Option.getD_some,
      List.elem_eq_mem, decide_eq_true_eq, hg, if_true, true_and]
    intro t ht
    rw [expandTargets_getD]
    exact Registry.not_mem_idsOf_remove _ _ _ _ (List.mem_map_of_mem _ ht)

theorem delete_results_witness :
    (Registry.conn.DeregisterTargetsWithContext
        ⟨some Example.stateBC.TargetGroupARN.ValueString,
          expandTargets Example.stateBC.Target.ElementsAs⟩ Example.registryBC).1 = none ∧
      (resourceTargetGroupRegistration.Delete Registry.conn ⟨Example.stateBC⟩
        ⟨Example.registryBC, []⟩).1.Diagnostics = [] ∧
      ∀ t ∈ Example.stateBC.Target.ElementsAs,
        (expandTarget t).Id ∉ (resourceTargetGroupRegistration.Delete Registry.conn
          ⟨Example.stateBC⟩ ⟨Example.registryBC, []⟩).2.remote.idsOf
            Example.stateBC.TargetGroupARN.ValueString :=
  ⟨by decide,
    (delete_results Example.throttled ⟨Example.stateBC⟩ ⟨(), []⟩
      ⟨Example.registryBC, []⟩).2.2.2.2 (by decide)⟩

/-- C9, evaluated on the code: for the plan `{A, B}` and the prior state
`{B, C}`, against the reference registry holding `B` and `C`, `Update` records
no diagnostic and writes the plan as the new state, but it issues no call: the
registry still holds the IDs `B` and `C`, which are not the IDs `A` and `B` of
the plan. -/
theorem update_leaves_registry_unreconciled :
    (resourceTargetGroupRegistration.Update Registry.conn
      ⟨Example.planAB, Example.stateBC⟩ ⟨Example.registryBC, []⟩).1.Diagnostics = [] ∧
    (resourceTargetGroupRegistration.Update Registry.conn
      ⟨Example.planAB, Example.stateBC⟩ ⟨Example.registryBC, []⟩).1.State
      = some Example.planAB ∧
    (resourceTargetGroupRegistration.Update Registry.conn
      ⟨Example.planAB, Example.stateBC⟩ ⟨Example.registryBC, []⟩).2.calls = [] ∧
    (resourceTargetGroupRegistration.Update Registry.conn
      ⟨Example.planAB, Example.stateBC⟩ ⟨Example.registryBC, []⟩).2.remote.idsOf "G"
      = [some "B", some "C"] ∧
    targetIDs Example.planAB.Target.ElementsAs = [some "A", some "B"] ∧
    some "A" ∉ (resourceTargetGroupRegistration.Update Registry.conn
      ⟨Example.planAB, Example.stateBC⟩ ⟨Example.registryBC, []⟩).2.remote.idsOf "G" ∧
    some "C" ∉ targetIDs Example.planAB.Target.ElementsAs := by
  decide

/-- C10: for every plan and prior state, a planned target and a prior target
with the same target ID but a different availability zone or port are in
neither the to-register nor the to-deregister list of `Update`; `Update`
issues no call, leaves the remote state as it was, and writes the plan as the
new state without a diagnostic. -/
theorem update_lists_omit_drifted_target {σ : Type} (conn : ELBV2 σ)
    (req : UpdateRequest) (w : World σ) (t u : targetData)
    (_ht : t ∈ req.Plan.Target.ElementsAs) (_hu : u ∈ req.State.Target.ElementsAs)
    (_hid : t.TargetID = u.TargetID)
    (_hattr : t.AvailabilityZone ≠ u.AvailabilityZone ∨ t.Port ≠ u.Port) :
    t ∉ (resourceTargetGroupRegistration.Update.targets req.Plan req.State).1 ∧
    t ∉ (resourceTargetGroupRegistration.Update.targets req.Plan req.State).2 ∧
    u ∉ (resourceTargetGroupRegistration.Update.targets req.Plan req.State).1 ∧
    u ∉ (resourceTargetGroupRegistration.Update.targets req.Plan req.State).2 ∧
    w.issued (resourceTargetGroupRegistration.Update conn req w).2 = [] ∧
    (resourceTargetGroupRegistration.Update conn req w).2.remote = w.remote ∧
    (resourceTargetGroupRegistration.Update conn req w).1
      = { State := some req.Plan, Diagnostics := [] } := by
  rw [Update_targets_eq, Update_eq]
  exact ⟨List.not_mem_nil _, List.not_mem_nil _, List.not_mem_nil _, List.not_mem_nil _,
    issued_self w, rfl, rfl⟩

theorem update_lists_omit_drifted_target_witness :
    Example.targetAz1 ∈ Example.planDrift.Target.ElementsAs ∧
    Example.targetAz2 ∈ Example.stateDrift.Target.ElementsAs ∧
    Example.targetAz1.TargetID = Example.targetAz2.TargetID ∧
    (Example.targetAz1.AvailabilityZone ≠ Example.targetAz2.AvailabilityZone ∨
      Example.targetAz1.Port ≠ Example.targetAz2.Port) ∧
    (Example.targetAz1 ∉ (resourceTargetGroupRegistration.Update.targets
        Example.planDrift Example.stateDrift).1 ∧
      Example.targetAz1 ∉ (resourceTargetGroupRegistration.Update.targets
        Example.planDrift Example.stateDrift).2 ∧
      Example.targetAz2 ∉ (resourceTargetGroupRegistration.Update.targets
        Example.planDrift Example.stateDrift).1 ∧
      Example.targetAz2 ∉ (resourceTargetGroupRegistration.Update.targets
        Example.planDrift Example.stateDrift).2 ∧
      World.issued ⟨Example.registryBC, []⟩ (resourceTargetGroupRegistration.Update
        Registry.conn ⟨Example.planDrift, Example.stateDrift⟩
        ⟨Example.registryBC, []⟩).2 = [] ∧
      (resourceTargetGroupRegistration.Update Registry.conn
        ⟨Example.planDrift, Example.stateDrift⟩ ⟨Example.registryBC, []⟩).2.remote
        = Example.registryBC ∧
      (resourceTargetGroupRegistration.Update Registry.conn
        ⟨Example.planDrift, Example.stateDrift⟩ ⟨Example.registryBC, []⟩).1
        = { State := some Example.planDrift, Diagnostics := [] }) :=
  ⟨by decide, by decide, rfl, Or.inl (by decide),
    update_lists_omit_drifted_target Registry.conn
      ⟨Example.planDrift, Example.stateDrift⟩ ⟨Example.registryBC, []⟩
      Example.targetAz1 Example.targetAz2 (by decide) (by decide) rfl
      (Or.inl (by decide))⟩

/-- C11, refuted as stated: against a remote service whose first register call
fails with the client error code and whose second would succeed, `Create`
issues one register call only, records an error diagnostic and writes no
state. -/
theorem create_does_not_retry_client_error :
    (Example.flaky.RegisterTargetsWithContext
      ⟨some Example.planAB.TargetGroupARN.ValueString,
        expandTargets Example.planAB.Target.ElementsAs⟩ 0).1
      = some (SdkError.awserr "ClientError" "not ready") ∧
    (Example.flaky.RegisterTargetsWithContext
      ⟨some Example.planAB.TargetGroupARN.ValueString,
        expandTargets Example.planAB.Target.ElementsAs⟩ 1).1 = none ∧
    (resourceTargetGroupRegistration.Create Example.flaky ⟨Example.planAB⟩ ⟨0, []⟩).2.calls
      = [Call.RegisterTargets ⟨some Example.planAB.TargetGroupARN.ValueString,
          expandTargets Example.planAB.Target.ElementsAs⟩] ∧
    (resourceTargetGroupRegistration.Create Example.flaky ⟨Example.planAB⟩ ⟨0, []⟩).2.remote
      = 1 ∧
    diag.HasError (resourceTargetGroupRegistration.Create Example.flaky ⟨Example.planAB⟩
      ⟨0, []⟩).1.Diagnostics = true ∧
    (resourceTargetGroupRegistration.Create Example.flaky ⟨Example.planAB⟩ ⟨0, []⟩).1.State
      = none := by
  refine ⟨by decide, by decide, ?_, ?_, ?_, ?_⟩
  · rfl
  · rfl
  · rfl
  · rfl

/-- C11, amended: `Create` applies no retry.  Whatever the remote service
answers, it issues the register call exactly once and leaves the remote state
as that one call left it; every failure of the call, one with the client error
code included, is recorded at once as an error diagnostic and no state is
written. -/
theorem create_issues_one_call_without_retry {σ : Type} (conn : ELBV2 σ)
    (req : CreateRequest) (w : World σ) :
    (w.issued (resourceTargetGroupRegistration.Create conn req w).2).length = 1 ∧
    (resourceTargetGroupRegistration.Create conn req w).2.remote
      = (conn.RegisterTargetsWithContext
          ⟨some req.Plan.TargetGroupARN.ValueString,
            expandTargets req.Plan.Target.ElementsAs⟩ w.remote).2 ∧
    (∀ e, (conn.RegisterTargetsWithContext
          ⟨some req.Plan.TargetGroupARN.ValueString,
            expandTargets req.Plan.Target.ElementsAs⟩ w.remote).1 = some e →
      (resourceTargetGroupRegistration.Create conn req w).1
        = { State := none,
            Diagnostics := [⟨diag.Severity.Error,
              create.ProblemStandardMessage names.ELBV2 create.ErrActionCreating
                ResNameTargetGroupRegistration req.Plan.TargetGroupARN.String e.Error,
              e.Error⟩] }) := by
  have hcalls : (resourceTargetGroupRegistration.Create conn req w).2.calls
      = w.calls ++ [Call.RegisterTargets ⟨some req.Plan.TargetGroupARN.ValueString,
          expandTargets req.Plan.Target.ElementsAs⟩] := by
    unfold resourceTargetGroupRegistration.Create
    simp only [World.register]
    split <;> rfl
  refine ⟨by rw [issued_append w _ _ hcalls]; rfl, ?_, ?_⟩
  · unfold resourceTargetGroupRegistration.Create
    simp only [World.register]
    split <;> rfl
  · intro e he
    unfold resourceTargetGroupRegistration.Create
    simp only [World.register]
    rw [he]
    simp [diag.AddError]

theorem create_issues_one_call_without_retry_witness :
    (Example.flaky.RegisterTargetsWithContext
      ⟨some Example.planAB.TargetGroupARN.ValueString,
        expandTargets Example.planAB.Target.ElementsAs⟩ 0).1
      = some (SdkError.awserr "ClientError" "not ready") ∧
    (resourceTargetGroupRegistration.Create Example.flaky ⟨Example.planAB⟩ ⟨0, []⟩).1
      = { State := none,
          Diagnostics := [⟨diag.Severity.Error,
            create.ProblemStandardMessage names.ELBV2 create.ErrActionCreating
              ResNameTargetGroupRegistration Example.planAB.TargetGroupARN.String
              (SdkError.awserr "ClientError" "not ready").Error,
            (SdkError.awserr "ClientError" "not ready").Error⟩] } :=
  ⟨by decide,
    (create_issues_one_call_without_retry Example.flaky ⟨Example.planAB⟩ ⟨0, []⟩).2.2
      (SdkError.awserr "ClientError" "not ready") (by decide)⟩

/-- C12, refuted as stated: the plan `{A, B}` and the prior state `{B, C}` have
different target sets, yet `Update` issues no register call: its to-register
list is empty, and the register call that would carry the planned targets is
not in the call log. -/
theorem update_registers_nothing_for_differing_sets :
    types.Set.Equal Example.planAB.Target Example.stateBC.Target = false ∧
    (resourceTargetGroupRegistration.Update.targets Example.planAB Example.stateBC).1 = [] ∧
    Call.RegisterTargets ⟨some Example.planAB.TargetGroupARN.ValueString,
        expandTargets Example.planAB.Target.ElementsAs⟩
      ∉ (resourceTargetGroupRegistration.Update Registry.conn
          ⟨Example.planAB, Example.stateBC⟩ ⟨Example.registryBC, []⟩).2.calls ∧
    ¬ (∀ (plan state : resourceTargetGroupRegistrationData) (w : World Registry),
        types.Set.Equal plan.Target state.Target = false →
        Call.RegisterTargets ⟨some plan.TargetGroupARN.ValueString,
            expandTargets plan.Target.ElementsAs⟩
          ∈ w.issued (resourceTargetGroupRegistration.Update Registry.conn
              ⟨plan, state⟩ w).2) := by
  refine ⟨by decide, by decide, by decide, ?_⟩
  intro h
  have h1 := h Example.planAB Example.stateBC ⟨Example.registryBC, []⟩ (by decide)
  revert h1
  decide

/-- C12, amended: in `Update` the two sets that are differenced are both built
from the planned targets, and as a result both differences are empty: for
every plan and prior state, whether their target sets differ or not, `Update`
treats no target as to-register and no target as to-deregister, issues
neither a register nor a deregister call, leaves the remote state as it was,
and writes the plan as the new state without a diagnostic. -/
theorem update_differences_plan_against_plan {σ : Type} (conn : ELBV2 σ)
    (req : UpdateRequest) (w : World σ) :
    resourceTargetGroupRegistration.Update.targets req.Plan req.State
      = (flex.Set.Difference req.Plan.Target.ElementsAs req.Plan.Target.ElementsAs,
         flex.Set.Difference req.Plan.Target.ElementsAs req.Plan.Target.ElementsAs) ∧
    resourceTargetGroupRegistration.Update.targets req.Plan req.State = ([], []) ∧
    w.issued (resourceTargetGroupRegistration.Update conn req w).2 = [] ∧
    (resourceTargetGroupRegistration.Update conn req w).2.calls = w.calls ∧
    (resourceTargetGroupRegistration.Update conn req w).2.remote = w.remote ∧
    (resourceTargetGroupRegistration.Update conn req w).1
      = { State := some req.Plan, Diagnostics := [] } := by
  refine ⟨?_, Update_targets_eq _ _, ?_, ?_, ?_, ?_⟩
  · rw [Update_targets_eq, Difference_self]
  · rw [Update_eq]
    exact issued_self w
  · rw [Update_eq]
  · rw [Update_eq]
  · rw [Update_eq]

/-- C13, refuted as stated: against a Macie service whose create call always
fails with the client error code, with a time limit that two attempts fit in,
the retry helper returns the client error of the second attempt, which is not
a timeout for `tfresource.TimedOut`; `resourceCustomDataIdentifierCreate` makes
no further call after the two attempts, returns an error diagnostic and leaves
the ID unset. -/
theorem create_identifier_exhausted_budget_makes_no_further_call :
    (retry.RetryContext 2 (resourceCustomDataIdentifierCreate.attempt
        Example.macieClientError
        (resourceCustomDataIdentifierCreate.input Example.env Example.identifier))
        { output := none, err := none, world := ⟨(), []⟩ }).1
      = some (retry.Failure.fn (SdkError.awserr "ClientError" "not ready")) ∧
    tfresource.TimedOut (retry.RetryContext 2 (resourceCustomDataIdentifierCreate.attempt
        Example.macieClientError
        (resourceCustomDataIdentifierCreate.input Example.env Example.identifier))
        { output := none, err := none, world := ⟨(), []⟩ }).1 = false ∧
    (resourceCustomDataIdentifierCreate Example.macieClientError Example.env
        Example.readNothing 2 Example.identifier ⟨(), []⟩).map
        (fun r => r.World.creates.length) = some 2 ∧
    (resourceCustomDataIdentifierCreate Example.macieClientError Example.env
        Example.readNothing 2 Example.identifier ⟨(), []⟩).map
        (fun r => (diag.HasError r.Diagnostics, r.Data.Id)) = some (true, "") := by
  refine ⟨by decide, by decide, by decide, by decide⟩

/-- C13, amended: in `resourceCustomDataIdentifierCreate` a failed create call
is retryable exactly when its error code is the client error code.  Within the
retry loop a successful call ends the loop with no error, a failure with any
other code ends it at once with that error, and a client error is followed by
the next attempt while the time limit allows one; when the limit is reached
after client errors, the last client error is returned.  The retry helper
reports a timeout, which `tfresource.TimedOut` recognises, only when no attempt
returned within the limit, and only then is exactly one further create call
made; after any other outcome there is no further call.  Whenever the final
error is not nil, the function returns one error diagnostic and the resource
data unchanged, so without an ID set; the loop issues at most as many calls as
the limit allows. -/
theorem create_identifier_retry_results {σ : Type} (conn : Macie2 σ) (env : CreateEnv)
    (read : schema.ResourceData → Macie2World σ → CreateResult σ) (budget : Nat)
    (d : schema.ResourceData) (w : Macie2World σ) (v : CreateVars σ)
    (resultErr : Option SdkError) :
    let input := resourceCustomDataIdentifierCreate.input env d
    let f := resourceCustomDataIdentifierCreate.attempt conn input
    let r := retry.RetryContext budget f { output := none, err := none, world := w }
    let further := r.2.call conn input
    (∀ e, (v.call conn input).err = some e →
      f v = (some ⟨e, tfawserr.ErrCodeEquals (some e) macie2.ErrorCodeClientError⟩,
             v.call conn input)) ∧
    ((v.call conn input).err = none →
      f v = (none, v.call conn input) ∧
      retry.RetryContext.loop f (budget + 1) resultErr v = (none, v.call conn input)) ∧
    (∀ e, (v.call conn input).err = some e →
      tfawserr.ErrCodeEquals (some e) macie2.ErrorCodeClientError = false →
      retry.RetryContext.loop f (budget + 1) resultErr v
        = (some (retry.Failure.fn e), v.call conn input)) ∧
    (∀ e, (v.call conn input).err = some e →
      tfawserr.ErrCodeEquals (some e) macie2.ErrorCodeClientError = true →
      retry.RetryContext.loop f (budget + 1) resultErr v
        = retry.RetryContext.loop f budget (some e) (v.call conn input)) ∧
    (∀ e, retry.RetryContext.loop f 0 (some e) v = (some (retry.Failure.fn e), v)) ∧
    (tfresource.TimedOut r.1 = true ↔ budget = 0) ∧
    r.2.world.creates.length ≤ w.creates.length + budget ∧
    (tfresource.TimedOut r.1 = true →
      further.world.creates = r.2.world.creates ++ [input] ∧
      resourceCustomDataIdentifierCreate conn env read budget d w
        = match further.err with
          | some e => some {
              Diagnostics := diag.Errorf ("creating Macie CustomDataIdentifier: " ++ e.Error),
              Data := d, World := further.world }
          | none => further.output.map (fun output =>
              read { d with Id := aws.StringValue output.CustomDataIdentifierId }
                further.world)) ∧
    (∀ e, r.1 = some (retry.Failure.fn e) →
      resourceCustomDataIdentifierCreate conn env read budget d w
        = some {
            Diagnostics := diag.Errorf ("creating Macie CustomDataIdentifier: " ++ e.Error),
            Data := d, World := r.2.world }) ∧
    (r.1 = none →
      resourceCustomDataIdentifierCreate conn env read budget d w
        = r.2.output.map (fun output =>
            read { d with Id := aws.StringValue output.CustomDataIdentifierId }
              r.2.world)) := by
  intro input f r further
  refine ⟨?_, ?_, ?_, ?_, ?_, ?_, ?_, ?_, ?_, ?_⟩
  · intro e he
    show resourceCustomDataIdentifierCreate.attempt conn input v = _
    rw [attempt_eq, he]
    rfl
  · intro he
    have hf : f v = (none, v.call conn input) := by
      show resourceCustomDataIdentifierCreate.attempt conn input v = _
      rw [attempt_eq, he]
      rfl
    refine ⟨hf, ?_⟩
    rw [RetryContext_loop_succ, hf]
  · intro e he hc
    have hf : f v = (some ⟨e, false⟩, v.call conn input) := by
      show resourceCustomDataIdentifierCreate.attempt conn input v = _
      rw [attempt_eq, he, ← hc]
      rfl
    rw [RetryContext_loop_succ, hf]
    simp
  · intro e he hc
    have hf : f v = (some ⟨e, true⟩, v.call conn input) := by
      show resourceCustomDataIdentifierCreate.attempt conn input v = _
      rw [attempt_eq, he, ← hc]
      rfl
    rw [RetryContext_loop_succ, hf]
    simp
  · intro e
    simp [retry.RetryContext.loop]
  · constructor
    · intro ht
      cases budget with
      | zero => rfl
      | succ n =>
        exfalso
        have hne := RetryContext_loop_succ_ne_timeout f n none
          { output := none, err := none, world := w } none
        have hr : r.1 = (retry.RetryContext.loop f (n + 1) none
            { output := none, err := none, world := w }).1 := rfl
        rw [← hr] at hne
        rcases h : r.1 with _ | (e | (_ | e)) <;> simp_all [tfresource.TimedOut]
    · intro hb
      subst hb
      rfl
  · exact RetryContext_loop_creates_le conn input budget none _
  · intro ht
    refine ⟨rfl, ?_⟩
    have hr : (retry.RetryContext budget (resourceCustomDataIdentifierCreate.attempt conn
        (resourceCustomDataIdentifierCreate.input env d))
        { output := none, err := none, world := w }).1 = r.1 := rfl
    unfold resourceCustomDataIdentifierCreate
    simp only [hr, ht, if_true]
    rcases h : further.err with _ | e
    · have h2 : (r.2.call conn input).err = none := h
      simp only [h2, Option.map_none']
      rcases ho : further.output with _ | o
      · have ho2 : (r.2.call conn input).output = none := ho
        simp [ho2]
      · have ho2 : (r.2.call conn input).output = some o := ho
        simp [ho2]
    · have h2 : (r.2.call conn input).err = some e := h
      simp only [h2, Option.map_some']
      rfl
  · intro e he
    have hr : (retry.RetryContext budget (resourceCustomDataIdentifierCreate.attempt conn
        (resourceCustomDataIdentifierCreate.input env d))
        { output := none, err := none, world := w }).1 = some (retry.Failure.fn e) := he
    unfold resourceCustomDataIdentifierCreate
    simp only [hr, tfresource.TimedOut]
    rfl
  · intro he
    have hr : (retry.RetryContext budget (resourceCustomDataIdentifierCreate.attempt conn
        (resourceCustomDataIdentifierCreate.input env d))
        { output := none, err := none, world := w }).1 = none := he
    unfold resourceCustomDataIdentifierCreate
    simp only [hr, tfresource.TimedOut]
    rcases ho : r.2.output with _ | o
    · have ho2 : (retry.RetryContext budget (resourceCustomDataIdentifierCreate.attempt conn
          (resourceCustomDataIdentifierCreate.input env d))
          { output := none, err := none, world := w }).2.output = none := ho
      simp [ho2]
    · have ho2 : (retry.RetryContext budget (resourceCustomDataIdentifierCreate.attempt conn
          (resourceCustomDataIdentifierCreate.input env d))
          { output := none, err := none, world := w }).2.output = some o := ho
      simp [ho2]

theorem create_identifier_retry_results_witness :
    ((CreateVars.call Example.macieFlaky
        (resourceCustomDataIdentifierCreate.input Example.env Example.identifier)
        { output := none, err := none, world := ⟨0, []⟩ }).err
        = some (SdkError.awserr "ClientError" "not ready") ∧
      tfawserr.ErrCodeEquals (some (SdkError.awserr "ClientError" "not ready"))
        macie2.ErrorCodeClientError = true ∧
      retry.RetryContext.loop (resourceCustomDataIdentifierCreate.attempt Example.macieFlaky
          (resourceCustomDataIdentifierCreate.input Example.env Example.identifier))
          (1 + 1) none { output := none, err := none, world := ⟨0, []⟩ }
        = retry.RetryContext.loop (resourceCustomDataIdentifierCreate.attempt
            Example.macieFlaky
            (resourceCustomDataIdentifierCreate.input Example.env Example.identifier))
            1 (some (SdkError.awserr "ClientError" "not ready"))
            (CreateVars.call Example.macieFlaky
              (resourceCustomDataIdentifierCreate.input Example.env Example.identifier)
              { output := none, err := none, world := ⟨0, []⟩ })) ∧
    ((CreateVars.call Example.macieInvalid
        (resourceCustomDataIdentifierCreate.input Example.env Example.identifier)
        { output := none, err := none, world := ⟨(), []⟩ }).err
        = some (SdkError.awserr "ValidationException" "bad regex") ∧
      tfawserr.ErrCodeEquals (some (SdkError.awserr "ValidationException" "bad regex"))
        macie2.ErrorCodeClientError = false ∧
      retry.RetryContext.loop (resourceCustomDataIdentifierCreate.attempt
          Example.macieInvalid
          (resourceCustomDataIdentifierCreate.input Example.env Example.identifier))
          (1 + 1) none { output := none, err := none, world := ⟨(), []⟩ }
        = (some (retry.Failure.fn (SdkError.awserr "ValidationException" "bad regex")),
           CreateVars.call Example.macieInvalid
            (resourceCustomDataIdentifierCreate.input Example.env Example.identifier)
            { output := none, err := none, world := ⟨(), []⟩ })) ∧
    (tfresource.TimedOut (retry.RetryContext 0 (resourceCustomDataIdentifierCreate.attempt
          Example.macieFlaky
          (resourceCustomDataIdentifierCreate.input Example.env Example.identifier))
          { output := none, err := none, world := ⟨1, []⟩ }).1 = true ∧
      resourceCustomDataIdentifierCreate Example.macieFlaky Example.env
          Example.readNothing 0 Example.identifier ⟨1, []⟩
        = some { Diagnostics := [], Data := { Example.identifier with Id := "cdi-1" },
                 World := ⟨2, [resourceCustomDataIdentifierCreate.input Example.env
                   Example.identifier]⟩ }) ∧
    ((retry.RetryContext 2 (resourceCustomDataIdentifierCreate.attempt
          Example.macieClientError
          (resourceCustomDataIdentifierCreate.input Example.env Example.identifier))
          { output := none, err := none, world := ⟨(), []⟩ }).1
        = some (retry.Failure.fn (SdkError.awserr "ClientError" "not ready")) ∧
      resourceCustomDataIdentifierCreate Example.macieClientError Example.env
          Example.readNothing 2 Example.identifier ⟨(), []⟩
        = some { Diagnostics := diag.Errorf ("creating Macie CustomDataIdentifier: "
                   ++ (SdkError.awserr "ClientError" "not ready").Error),
                 Data := Example.identifier,
                 World := ⟨(), [resourceCustomDataIdentifierCreate.input Example.env
                   Example.identifier, resourceCustomDataIdentifierCreate.input Example.env
                   Example.identifier]⟩ }) ∧
    ((retry.RetryContext 2 (resourceCustomDataIdentifierCreate.attempt
          Example.macieFlaky
          (resourceCustomDataIdentifierCreate.input Example.env Example.identifier))
          { output := none, err := none, world := ⟨0, []⟩ }).1 = none ∧
      resourceCustomDataIdentifierCreate Example.macieFlaky Example.env
          Example.readNothing 2 Example.identifier ⟨0, []⟩
        = some { Diagnostics := [], Data := { Example.identifier with Id := "cdi-1" },
                 World := ⟨2, [resourceCustomDataIdentifierCreate.input Example.env
                   Example.identifier, resourceCustomDataIdentifierCreate.input Example.env
                   Example.identifier]⟩ }) :=
  ⟨⟨by decide, by decide,
      (create_identifier_retry_results Example.macieFlaky Example.env Example.readNothing 1
        Example.identifier ⟨0, []⟩ { output := none, err := none, world := ⟨0, []⟩ }
        none).2.2.2.1 (SdkError.awserr "ClientError" "not ready") (by decide) (by decide)⟩,
    ⟨by decide, by decide,
      (create_identifier_retry_results Example.macieInvalid Example.env Example.readNothing 1
        Example.identifier ⟨(), []⟩ { output := none, err := none, world := ⟨(), []⟩ }
        none).2.2.1 (SdkError.awserr "ValidationException" "bad regex")
        (by decide) (by decide)⟩,
    ⟨by decide,
      ((create_identifier_retry_results Example.macieFlaky Example.env Example.readNothing 0
        Example.identifier ⟨1, []⟩ { output := none, err := none, world := ⟨1, []⟩ }
        none).2.2.2.2.2.2.2.1 (by decide)).2⟩,
    ⟨by decide,
      (create_identifier_retry_results Example.macieClientError Example.env
        Example.readNothing 2 Example.identifier ⟨(), []⟩
        { output := none, err := none, world := ⟨(), []⟩ }
        none).2.2.2.2.2.2.2.2.1 (SdkError.awserr "ClientError" "not ready") (by decide)⟩,
    ⟨by decide,
      (create_identifier_retry_results Example.macieFlaky Example.env Example.readNothing 2
        Example.identifier ⟨0, []⟩ { output := none, err := none, world := ⟨0, []⟩ }
        none).2.2.2.2.2.2.2.2.2 (by decide)⟩⟩

/-- C14: `expandTargets` returns nil for the empty list.  For a non-empty list
it returns a list of the same length whose entry at each position is built
from the target at that position: the `Id` is the target's `target_id` string,
the `AvailabilityZone` is set exactly when `availability_zone` is not null, and
the `Port` is set exactly when `port` is neither null nor unknown, in which
case it is the known port. -/
theorem expandTargets_results (tfList : List targetData) :
    (tfList = [] → expandTargets tfList = none) ∧
    (tfList ≠ [] → ∃ l : List elbv2.TargetDescription,
      expandTargets tfList = some l ∧ l.length = tfList.length ∧
      ∀ (i : Nat) (t : targetData), tfList[i]? = some t →
        ∃ a : elbv2.TargetDescription, l[i]? = some a ∧
        a.Id = some t.TargetID.ValueString ∧
        (a.AvailabilityZone.isSome = true ↔ t.AvailabilityZone ≠ types.String.null) ∧
        (∀ z, t.AvailabilityZone = types.String.value z → a.AvailabilityZone = some z) ∧
        (a.Port.isSome = true ↔
          (t.Port ≠ types.Int64.null ∧ t.Port ≠ types.Int64.unknown)) ∧
        (∀ p, t.Port = types.Int64.value p → a.Port = some p)) := by
  refine ⟨fun h => by simp [expandTargets_eq, h], fun h => ?_⟩
  refine ⟨tfList.map expandTarget, by simp [expandTargets_eq, h], by simp, ?_⟩
  intro i t hit
  refine ⟨expandTarget t, by simp [hit], ?_⟩
  obtain ⟨h1, h2, h3⟩ := expandTarget_fields t
  rw [h1, h2, h3]
  refine ⟨rfl, ?_, ?_, ?_, ?_⟩
  · cases t.AvailabilityZone <;> simp [types.String.IsNull]
  · intro z hz
    simp [hz, types.String.IsNull, types.String.ValueString]
  · cases t.Port <;> simp [types.Int64.IsNull, types.Int64.IsUnknown]
  · intro p hp
    simp [hp, types.Int64.IsNull, types.Int64.IsUnknown, types.Int64.ValueInt64]

theorem expandTargets_results_witness :
    [Example.targetPort, Example.targetUnknownPort] ≠ [] ∧
    expandTargets [Example.targetPort, Example.targetUnknownPort]
      = some [⟨none, some "P", some 8080⟩, ⟨some "z1", some "U", none⟩] ∧
    ∃ l : List elbv2.TargetDescription,
      expandTargets [Example.targetPort, Example.targetUnknownPort] = some l ∧
      l.length = [Example.targetPort, Example.targetUnknownPort].length ∧
      ∀ (i : Nat) (t : targetData),
        [Example.targetPort, Example.targetUnknownPort][i]? = some t →
        ∃ a : elbv2.TargetDescription, l[i]? = some a ∧
        a.Id = some t.TargetID.ValueString ∧
        (a.AvailabilityZone.isSome = true ↔ t.AvailabilityZone ≠ types.String.null) ∧
        (∀ z, t.AvailabilityZone = types.String.value z → a.AvailabilityZone = some z) ∧
        (a.Port.isSome = true ↔
          (t.Port ≠ types.Int64.null ∧ t.Port ≠ types.Int64.unknown)) ∧
        (∀ p, t.Port = types.Int64.value p → a.Port = some p) :=
  ⟨by decide, by decide,
    (expandTargets_results [Example.targetPort, Example.targetUnknownPort]).2 (by decide)⟩

/-- C15: `flattenTargets` returns the null set for the empty list.  For a
non-empty list it returns a known set whose elements are, in order, one object
per entry that is non-nil and has a non-nil `Target`, with `availability_zone`,
`port` and `target_id` taken from that target's `AvailabilityZone`, `Port` and
`Id`; the other entries contribute nothing, and in both cases there is no
diagnostic. -/
theorem flattenTargets_results (apiObjects : List (Option elbv2.TargetHealthDescription)) :
    (flattenTargets apiObjects).2 = [] ∧
    (apiObjects = [] → (flattenTargets apiObjects).1 = types.Set.null) ∧
    (apiObjects ≠ [] →
      (flattenTargets apiObjects).1 = types.Set.value (apiObjects.filterMap (fun apiObject =>
        (apiObject.bind (fun d => d.Target)).map (fun target =>
          ({ AvailabilityZone := flex.StringToFramework target.AvailabilityZone,
             Port := flex.Int64ToFramework target.Port,
             TargetID := flex.StringToFramework target.Id } : targetData)))) ∧
      ∀ x : targetData, x ∈ (flattenTargets apiObjects).1.ElementsAs ↔
        ∃ d target, some d ∈ apiObjects ∧ d.Target = some target ∧
          x.AvailabilityZone = flex.StringToFramework target.AvailabilityZone ∧
          x.Port = flex.Int64ToFramework target.Port ∧
          x.TargetID = flex.StringToFramework target.Id) := by
  refine ⟨flattenTargets_diags _, fun h => by simp [flattenTargets, h], fun h => ?_⟩
  have hlen : (apiObjects.length == 0) = false := by
    cases apiObjects with
    | nil => exact absurd rfl h
    | cons a l => rfl
  have hval : (flattenTargets apiObjects).1 = types.Set.value (apiObjects.filterMap
      (fun apiObject => (apiObject.bind (fun d => d.Target)).map (fun target =>
        ({ AvailabilityZone := flex.StringToFramework target.AvailabilityZone,
           Port := flex.Int64ToFramework target.Port,
           TargetID := flex.StringToFramework target.Id } : targetData)))) := by
    unfold flattenTargets
    simp only [hlen, flattenTargets_foldl, List.nil_append]
    rfl
  refine ⟨hval, ?_⟩
  intro x
  rw [hval]
  simp only [types.Set.ElementsAs, List.mem_filterMap, Option.map_eq_some', Option.bind_eq_some]
  constructor
  · rintro ⟨o, ho, t, ⟨d, hd, hdt⟩, rfl⟩
    subst hd
    exact ⟨d, t, ho, hdt, rfl, rfl, rfl⟩
  · rintro ⟨d, t, hd, hdt, h1, h2, h3⟩
    refine ⟨some d, hd, t, ⟨d, rfl, hdt⟩, ?_⟩
    cases x
    simp_all

theorem flattenTargets_results_witness :
    ([none, some ⟨none, none⟩, some ⟨none, some ⟨some "z1", some "U", none⟩⟩] :
      List (Option elbv2.TargetHealthDescription)) ≠ [] ∧
    (flattenTargets [none, some ⟨none, none⟩,
      some ⟨none, some ⟨some "z1", some "U", none⟩⟩]).1
      = types.Set.value [⟨.value "z1", .null, .value "U"⟩] ∧
    (flattenTargets [none, some ⟨none, none⟩]).1 = types.Set.value [] :=
  ⟨by decide,
    ((flattenTargets_results [none, some ⟨none, none⟩,
      some ⟨none, some ⟨some "z1", some "U", none⟩⟩]).2.2 (by decide)).1,
    ((flattenTargets_results [none, some ⟨none, none⟩]).2.2 (by decide)).1⟩
